import Mathlib

/-!
Verification development for the react-win32dialog repository.

The geometry engine (`DialogRect`, from `src/rect.js`) and the window
coordinator (`WindowManager`, from `src/manager.js`, together with the
window-adapter methods of the dialog component that the manager invokes)
are embedded shallowly:

* JavaScript numbers that hold pixel coordinates are modelled as `Int`.
* Optional / possibly-`undefined` arguments are modelled as `Option Int`;
  JavaScript truthiness of a number (`v` is falsy exactly when it is `0`,
  `undefined` or `null`) is modelled by `jsTruthy`.
* The manager's backing array (which may contain `null` entries and stale
  slots past `zIndexTop`) is a `List (Option ManagedWindow)`; an index
  read that JavaScript would answer with `undefined` yields `none`, and a
  method call on such a slot is an error value (`Except.error`), mirroring
  the `TypeError` the browser would raise.
* The two one-shot timers are modelled by their observable scheduling
  state (`showTooltipPending` holds the armed payload, if any).
* Adapter methods that only touch the excluded view layer (React state,
  CSS) are modelled by their effect on the adapter-owned fields the
  manager reads, plus bookkeeping fields (`clickedButtons`, `fixCount`)
  that record the calls the manager makes, so that "fires exactly once"
  style properties can be stated.
-/

namespace ReactWin32

/-! ## cursor.js -/

/-- The `cursorState` enumeration object of `cursor.js`. -/
inductive CursorState where
  | regular
  | bottom
  | bottomright
  | bottomleft
  | top
  | topright
  | topleft
  | right
  | left
  deriving Repr, DecidableEq

/-- A `CursorPos` object: a cursor position in page coordinates. -/
structure CursorPos where
  x : Int
  y : Int
  deriving Repr, DecidableEq

/-! ## rect.js : the `DialogRect` geometry engine -/

/-- `defaultRect.min_w` from `rect.js`. -/
def defaultRect_min_w : Int := 118
/-- `defaultRect.min_h` from `rect.js`. -/
def defaultRect_min_h : Int := 23
/-- `defaultRect.border_w` from `rect.js`. -/
def defaultRect_border_w : Int := 2

/-- JavaScript truthiness of an optional number: `undefined`, `null` and
`0` are falsy, every other number is truthy. -/
def jsTruthy : Option Int → Bool
  | none => false
  | some n => n != 0

/-- The fields of a `DialogRect` object. -/
structure DialogRect where
  borderWidth : Int
  minWidth : Int
  minHeight : Int
  left : Int
  top : Int
  width : Int
  height : Int
  right : Int
  bottom : Int
  cursorOffsetX : Int
  cursorOffsetY : Int
  deriving Repr, DecidableEq

namespace DialogRect

/-- The `DialogRect` constructor
`constructor(x, y, w, h, min_w, min_h, border_w)`.  Every argument is
optional; the truthiness checks mirror the source exactly. -/
def init (x y w h min_w min_h border_w : Option Int) : DialogRect :=
  let bw := match border_w with
    | some b => if b ≠ 0 ∧ defaultRect_border_w ≤ b then b else defaultRect_border_w
    | none => defaultRect_border_w
  let mw0 := match min_w with
    | some v => if v ≠ 0 ∧ 0 < v then v else defaultRect_min_w
    | none => defaultRect_min_w
  let mh0 := match min_h with
    | some v => if v ≠ 0 ∧ 0 < v then v else defaultRect_min_h
    | none => defaultRect_min_h
  let minW := mw0 + 2 * bw
  let minH := mh0 + 2 * bw
  let l := match x with
    | some v => if v ≠ 0 then v else 1
    | none => 1
  let t := match y with
    | some v => if v ≠ 0 then v else 1
    | none => 1
  let wd := match w with
    | some v => if v ≠ 0 ∧ minW < v then v else minW
    | none => minW
  let ht := match h with
    | some v => if v ≠ 0 ∧ minH < v then v else minH
    | none => minH
  { borderWidth := bw
    minWidth := minW
    minHeight := minH
    left := l
    top := t
    width := wd
    height := ht
    right := wd + l
    bottom := t + ht
    cursorOffsetX := 0
    cursorOffsetY := 0 }

/-- `DialogRect._update(x, y, w, h)`: each field is only overwritten by a
truthy argument, then `right`/`bottom` are re-derived. -/
def _update (r : DialogRect) (x y w h : Option Int) : DialogRect :=
  let l := if jsTruthy x then x.getD 0 else r.left
  let t := if jsTruthy y then y.getD 0 else r.top
  let wd := if jsTruthy w then w.getD 0 else r.width
  let ht := if jsTruthy h then h.getD 0 else r.height
  { r with
    left := l
    top := t
    width := wd
    height := ht
    right := wd + l
    bottom := t + ht }

/-- `DialogRect._resizeTop(cursor_y)`: returns `[new_height, new_top]`. -/
def _resizeTop (r : DialogRect) (cursor_y : Int) : Int × Int :=
  let cy := if cursor_y ≤ 0 then 1 else cursor_y
  let new_height := r.height - (cy - r.top)
  let new_top := cy
  if new_height < r.minHeight then
    (r.minHeight, new_top - (r.minHeight - new_height))
  else
    (new_height, new_top)

/-- `DialogRect._resizeLeft(cursor_x)`: returns `[new_width, new_left]`. -/
def _resizeLeft (r : DialogRect) (cursor_x : Int) : Int × Int :=
  let cx := if cursor_x ≤ 0 then 1 else cursor_x
  let diff_x := cx - r.left
  let new_width := r.width - diff_x
  let new_left := r.left + diff_x
  if new_width < r.minWidth then
    (r.minWidth, new_left - (r.minWidth - new_width))
  else
    (new_width, new_left)

/-- `DialogRect._resizeBottom(cursor_y)`: returns the new height. -/
def _resizeBottom (r : DialogRect) (cursor_y : Int) : Int :=
  let new_height := r.height + cursor_y - r.bottom
  if new_height < r.minHeight then r.minHeight else new_height

/-- `DialogRect._resizeRight(cursor_x)`: returns the new width. -/
def _resizeRight (r : DialogRect) (cursor_x : Int) : Int :=
  let new_width := r.width + cursor_x - r.right
  if new_width < r.minWidth then r.minWidth else new_width

/-- `DialogRect.resizeToCursor(cursor_pos, resize_type)`.  The cursor
offset is first added to the cursor position (the source mutates
`cursor_pos` in place); the per-edge helpers are then dispatched and the
results passed through `_update`. -/
def resizeToCursor (r : DialogRect) (cursor_pos : CursorPos)
    (resize_type : CursorState) : DialogRect :=
  let px := cursor_pos.x + r.cursorOffsetX
  let py := cursor_pos.y + r.cursorOffsetY
  match resize_type with
  | .right => r._update none none (some (r._resizeRight px)) none
  | .left =>
    let wl := r._resizeLeft px
    r._update (some wl.2) none (some wl.1) none
  | .top =>
    let ht := r._resizeTop py
    r._update none (some ht.2) none (some ht.1)
  | .bottom => r._update none none none (some (r._resizeBottom py))
  | .bottomright =>
    r._update none none (some (r._resizeRight px)) (some (r._resizeBottom py))
  | .bottomleft =>
    let wl := r._resizeLeft px
    r._update (some wl.2) none (some wl.1) (some (r._resizeBottom py))
  | .topright =>
    let ht := r._resizeTop py
    r._update none (some ht.2) (some (r._resizeRight px)) (some ht.1)
  | .topleft =>
    let ht := r._resizeTop py
    let wl := r._resizeLeft px
    r._update (some wl.2) (some ht.2) (some wl.1) (some ht.1)
  | .regular => r._update none none none none

/-- `isBetween(p, left, right)` from `rect.js`. -/
def isBetween (p left right : Int) : Bool :=
  if p ≥ left ∧ p ≤ right then true else false

/-- `DialogRect.getCursorResizeState(cursor_pos)`: classifies the cursor
position relative to the rect into one of the nine `cursorState`
values. -/
def getCursorResizeState (r : DialogRect) (cursor_pos : CursorPos) : CursorState :=
  let dgOffset : Int := 4
  let widthOffset := r.borderWidth + 2
  let totalOffset := widthOffset + dgOffset
  if isBetween cursor_pos.x (r.right - widthOffset) r.right then
    if isBetween cursor_pos.y r.top r.bottom then
      if cursor_pos.y ≥ r.bottom - totalOffset then .bottomright
      else if cursor_pos.y ≤ r.top + totalOffset then .topright
      else .right
    else .regular
  else if isBetween cursor_pos.x r.left (r.left + widthOffset) then
    if isBetween cursor_pos.y r.top r.bottom then
      if cursor_pos.y ≥ r.bottom - totalOffset then .bottomleft
      else if cursor_pos.y ≤ r.top + totalOffset then .topleft
      else .left
    else .regular
  else if isBetween cursor_pos.x r.left r.right then
    if isBetween cursor_pos.y (r.bottom - widthOffset) r.bottom then .bottom
    else if isBetween cursor_pos.y r.top (r.top + widthOffset) then .top
    else .regular
  else .regular

/-- `DialogRect.moveToCursor(cursor_pos)`. -/
def moveToCursor (r : DialogRect) (cursor_pos : CursorPos) : DialogRect :=
  r._update (some (cursor_pos.x + r.cursorOffsetX))
            (some (cursor_pos.y + r.cursorOffsetY)) none none

/-- `DialogRect.setCursorOffset(cursor_pos, resize_type)`.  Both
arguments are optional; an `undefined` `resize_type` selects the `default`
branch of the source's `switch` (the move-operation offsets). -/
def setCursorOffset (r : DialogRect) (cursor_pos : Option CursorPos)
    (resize_type : Option CursorState) : DialogRect :=
  let r0 := { r with cursorOffsetX := 0, cursorOffsetY := 0 }
  match cursor_pos with
  | none => r0
  | some p =>
    match resize_type with
    | some .right => { r0 with cursorOffsetX := r.right - p.x }
    | some .left => { r0 with cursorOffsetX := r.left - p.x }
    | some .top => { r0 with cursorOffsetY := r.top - p.y }
    | some .bottom => { r0 with cursorOffsetY := r.bottom - p.y }
    | some .bottomright =>
      { r0 with cursorOffsetX := r.right - p.x, cursorOffsetY := r.bottom - p.y }
    | some .bottomleft =>
      { r0 with cursorOffsetX := r.left - p.x, cursorOffsetY := r.bottom - p.y }
    | some .topright =>
      { r0 with cursorOffsetX := r.right - p.x, cursorOffsetY := r.top - p.y }
    | some .topleft =>
      { r0 with cursorOffsetX := r.left - p.x, cursorOffsetY := r.top - p.y }
    | some .regular => r0
    | none => { r0 with cursorOffsetX := r.left - p.x, cursorOffsetY := r.top - p.y }

/-- `DialogRect.moveWithinViewport()`. -/
def moveWithinViewport (r : DialogRect) : DialogRect :=
  r._update (some (if r.left ≤ 0 then 1 else r.left))
            (some (if r.top ≤ 0 then 1 else r.top)) none none

/-- `DialogRect.coverViewport()`; the viewport extent
(`window.innerWidth`/`window.innerHeight`) is passed as parameters. -/
def coverViewport (r : DialogRect) (innerWidth innerHeight : Int) : DialogRect :=
  r._update (some 1) (some 1) (some innerWidth) (some innerHeight)

end DialogRect

/-! ## The window-adapter contract (dialog component methods the manager calls)

`ManagedWindow` records the adapter-owned state the `WindowManager` reads
and writes through the §6 window-object contract.  React-state updates
(`setState`) are modelled by their effect on these fields; purely visual
consequences are dropped.  `clickedButtons` and `fixCount` log the
`handleTitlebarButtonClick` and `fixOffScreenMove` notifications the
manager delivers, so that occurrence counts can be reasoned about. -/

/-- The `NO_VALUE` sentinel from `globals.js`. -/
def NO_VALUE : Int := -1

/-- `titlebarButtons.minimize`. -/
def titlebarButtons_minimize : Int := 0
/-- `titlebarButtons.maximize`. -/
def titlebarButtons_maximize : Int := 1
/-- `titlebarButtons.close`. -/
def titlebarButtons_close : Int := 2

/-- A window adapter registered (or registrable) with the manager. -/
structure ManagedWindow where
  /-- Identity of the adapter object (object reference). -/
  id : Nat
  /-- React state `hasFocus`, set through `updateWindowFocus`. -/
  hasFocus : Bool
  /-- React state `zIndex`, set through `updateWindowZIndex`. -/
  zIndex : Int
  /-- The adapter's private `DialogRect` (`this.rc`). -/
  rc : DialogRect
  cursorOnWindow : Bool
  cursorOnTitlebar : Bool
  cursorOnTitlebarButtons : Bool
  hoverTitlebarButton : Int
  isMaximized : Bool
  isMinimized : Bool
  /-- Result of `isTitleOverflowing()` (a DOM measurement, treated as an
  adapter-reported flag). -/
  titleOverflowing : Bool
  /-- React state `activeTitlebarButton` (the visually pressed button). -/
  activeTitlebarButton : Int
  tooltipOnTitlebarButton : Int
  tooltipOnTitle : Bool
  /-- Whether `tooltipArgs.position` is non-null (a tooltip is shown). -/
  tooltipVisible : Bool
  /-- Log of the buttons passed to `handleTitlebarButtonClick`. -/
  clickedButtons : List Int
  /-- Number of `fixOffScreenMove` notifications received. -/
  fixCount : Nat
  deriving Repr, DecidableEq

namespace ManagedWindow

/-- `updateWindowFocus(new_focus)`. -/
def updateWindowFocus (w : ManagedWindow) (new_focus : Bool) : ManagedWindow :=
  { w with hasFocus := new_focus }

/-- `updateWindowZIndex(new_zindex)`. -/
def updateWindowZIndex (w : ManagedWindow) (new_zindex : Int) : ManagedWindow :=
  { w with zIndex := new_zindex }

/-- `updateWindowPosition(cursor_pos)`: delegates to `rc.moveToCursor`. -/
def updateWindowPosition (w : ManagedWindow) (cursor_pos : CursorPos) : ManagedWindow :=
  { w with rc := w.rc.moveToCursor cursor_pos }

/-- `updateWindowSize(cursor_pos, resize_type)`: delegates to
`rc.resizeToCursor`. -/
def updateWindowSize (w : ManagedWindow) (cursor_pos : CursorPos)
    (resize_type : CursorState) : ManagedWindow :=
  { w with rc := w.rc.resizeToCursor cursor_pos resize_type }

/-- `setupCursorOffset(cursor_pos, resize_type)`: delegates to
`rc.setCursorOffset`. -/
def setupCursorOffset (w : ManagedWindow) (cursor_pos : CursorPos)
    (resize_type : Option CursorState) : ManagedWindow :=
  { w with rc := w.rc.setCursorOffset (some cursor_pos) resize_type }

/-- `fixOffScreenMove()`: delegates to `rc.moveWithinViewport`; the
`fixCount` field logs that the off-screen correction ran. -/
def fixOffScreenMove (w : ManagedWindow) : ManagedWindow :=
  { w with rc := w.rc.moveWithinViewport, fixCount := w.fixCount + 1 }

/-- `pushTitlebarButton()`: if the cursor is on the titlebar buttons, the
hovered button (defaulted to maximize when no hover is recorded) becomes
the active button; the hovered button is returned. -/
def pushTitlebarButton (w : ManagedWindow) : ManagedWindow × Int :=
  if w.cursorOnTitlebarButtons then
    let hv := if w.hoverTitlebarButton = NO_VALUE then titlebarButtons_maximize
              else w.hoverTitlebarButton
    ({ w with hoverTitlebarButton := hv, activeTitlebarButton := hv }, hv)
  else
    (w, w.hoverTitlebarButton)

/-- `releaseTitlebarButton()`. -/
def releaseTitlebarButton (w : ManagedWindow) : ManagedWindow :=
  { w with activeTitlebarButton := NO_VALUE }

/-- `handleTitlebarButtonClick(button)`: the click notification is
logged; the view-layer reaction (minimize/maximize/close) is out of the
manager model. -/
def handleTitlebarButtonClick (w : ManagedWindow) (button : Int) : ManagedWindow :=
  { w with clickedButtons := w.clickedButtons ++ [button] }

/-- `showTooltip(cursor_pos, zIndex)`: returns the updated adapter and
whether the tooltip was accepted (the boolean the manager branches on). -/
def showTooltip (w : ManagedWindow) : ManagedWindow × Bool :=
  if w.cursorOnTitlebarButtons then
    ({ w with
        tooltipOnTitlebarButton := w.hoverTitlebarButton
        tooltipOnTitle := false
        tooltipVisible := true }, true)
  else if w.titleOverflowing then
    ({ w with
        tooltipOnTitlebarButton := NO_VALUE
        tooltipOnTitle := true
        tooltipVisible := true }, true)
  else
    (w, false)

/-- `closeTooltip()`. -/
def closeTooltip (w : ManagedWindow) : ManagedWindow :=
  if w.tooltipVisible then
    { w with
        tooltipOnTitlebarButton := NO_VALUE
        tooltipOnTitle := false
        tooltipVisible := false }
  else w

/-- `getCursorState(cursor_pos)`: delegates to `rc.getCursorResizeState`. -/
def getCursorState (w : ManagedWindow) (cursor_pos : CursorPos) : CursorState :=
  w.rc.getCursorResizeState cursor_pos

end ManagedWindow

/-! ## manager.js : the `WindowManager` coordinator -/

/-- The handler currently installed in `this.moveAction`, made explicit
(the source compares function references). `emptyHandler` is the
`() => {}` installed on a titlebar right-click. -/
inductive MoveAction where
  | defaultMove
  | moveWindow
  | resizeWindow
  | titlebarButtonMove
  | emptyHandler
  deriving Repr, DecidableEq

/-- Reading `this.windows[i]`: `none` models a hole / `null` /
out-of-bounds read (JavaScript `undefined`). -/
def getSlot (ws : List (Option ManagedWindow)) (i : Int) : Option ManagedWindow :=
  if 0 ≤ i then (ws.getD i.toNat none) else none

/-- Writing `this.windows[i] = v`.  The manager only ever writes at an
index that is at most the array length; an assignment one past the end
grows the array, any other in-bounds assignment overwrites. -/
def setSlot (ws : List (Option ManagedWindow)) (i : Nat)
    (v : Option ManagedWindow) : List (Option ManagedWindow) :=
  if i < ws.length then ws.set i v else ws ++ [v]

/-- The `WindowManager` state. -/
structure WindowManager where
  windows : List (Option ManagedWindow)
  zIndexTop : Nat
  currCursor : CursorState
  moveAction : MoveAction
  cursorPos : Option CursorPos
  pressedButton : Int
  rightClickTitlebar : Bool
  /-- `showTooltipTimer`: `some z` when the one-shot timer is armed with
  payload `z`. -/
  showTooltipPending : Option Int
  /-- `closeTooltipTimer`: whether the one-shot timer is armed. -/
  closeTooltipPending : Bool
  windowWithVisibleTooltip : Int
  maximizedWindow : Int
  activeWindow : Int
  deriving Repr, DecidableEq

namespace WindowManager

/-- The `WindowManager` constructor (listener registration and the global
cursor style are environment effects outside the model). -/
def new : WindowManager :=
  { windows := []
    zIndexTop := 0
    currCursor := .regular
    moveAction := .defaultMove
    cursorPos := none
    pressedButton := -1
    rightClickTitlebar := false
    showTooltipPending := none
    closeTooltipPending := false
    windowWithVisibleTooltip := NO_VALUE
    maximizedWindow := NO_VALUE
    activeWindow := NO_VALUE }

/-- `registerWindow(w, checkInheritance = false)`.  Returns the new
manager state and the assigned z-index (`NO_VALUE` on rejection).
The old top window (when one exists) is defocused, the new window is
stored at index `zIndexTop` (pushed when the backing array has no spare
slot), focused, told its z-index, and `zIndexTop` is incremented.
On a corrupt registry (a `null` top slot) JavaScript would throw; the
model skips the defocus call, and every theorem below only exercises
well-formed registries. -/
def registerWindow (m : WindowManager) (w : ManagedWindow)
    (checkInheritance : Bool) : WindowManager × Int :=
  if !checkInheritance then
    let ws1 :=
      if 0 < m.zIndexTop then
        match getSlot m.windows ((m.zIndexTop : Int) - 1) with
        | some tw => setSlot m.windows (m.zIndexTop - 1) (some (tw.updateWindowFocus false))
        | none => m.windows
      else m.windows
    let w1 := (w.updateWindowFocus true).updateWindowZIndex (m.zIndexTop : Int)
    let ws2 :=
      if ws1.length = m.zIndexTop then ws1 ++ [some w1]
      else setSlot ws1 m.zIndexTop (some w1)
    ({ m with windows := ws2, zIndexTop := m.zIndexTop + 1 }, (m.zIndexTop : Int))
  else
    (m, NO_VALUE)

/-- The loop body of `_bringWindowToTop`:
`for (let i = zIndex; i < topZIndex; i++) { windows[i] = windows[i+1];
windows[i+1] = topWindow; windows[i].updateWindowZIndex(i);
windows[i].updateWindowFocus(false); }`.
The final argument is the remaining iteration count `topZIndex - i`
(structural fuel, so the definition evaluates by kernel reduction). -/
def bringWindowToTopLoop (ws : List (Option ManagedWindow)) (tw : ManagedWindow)
    (i : Nat) : Nat → List (Option ManagedWindow)
  | 0 => ws
  | fuel + 1 =>
    let sh :=
      match getSlot ws ((i : Int) + 1) with
      | some u => some ((u.updateWindowZIndex (i : Int)).updateWindowFocus false)
      | none => none
    bringWindowToTopLoop (setSlot (setSlot ws i sh) (i + 1) (some tw)) tw (i + 1) fuel

/-- `_bringWindowToTop(zIndex)`.  After the loop the `topWindow` object
sits in slot `topZIndex`; the final two mutations on it are modelled by
overwriting that slot with the updated value. -/
def bringWindowToTop (m : WindowManager) (zIndex : Nat) : WindowManager :=
  let topZ := m.zIndexTop - 1
  match getSlot m.windows (zIndex : Int) with
  | some tw =>
    let ws1 := bringWindowToTopLoop m.windows tw zIndex (topZ - zIndex)
    { m with
        windows := setSlot ws1 topZ
          (some ((tw.updateWindowZIndex (topZ : Int)).updateWindowFocus true)) }
  | none => m

/-- `unregisterWindow(zIndex)`: brings the target to the top, then writes
`null` at index `zIndexTop` (the post-decrement uses the old value) and
decrements `zIndexTop`.  Out-of-range indices only log. -/
def unregisterWindow (m : WindowManager) (zIndex : Int) : WindowManager :=
  if 0 ≤ zIndex ∧ zIndex < (m.zIndexTop : Int) then
    let m1 := m.bringWindowToTop zIndex.toNat
    { m1 with
        windows := setSlot m1.windows m.zIndexTop none
        zIndexTop := m.zIndexTop - 1 }
  else m

/-- `_resetCursor()`. -/
def _resetCursor (m : WindowManager) : WindowManager :=
  { m with currCursor := .regular }

/-- `_resetTooltip()`: cancels both timers and closes the visible
tooltip if there is one.  Dereferencing a missing slot is the
`TypeError` case. -/
def _resetTooltip (m : WindowManager) : Except String WindowManager :=
  let m1 := { m with showTooltipPending := none, closeTooltipPending := false }
  if m1.windowWithVisibleTooltip ≠ NO_VALUE then
    match getSlot m1.windows m1.windowWithVisibleTooltip with
    | some w =>
      .ok { m1 with
              windows := setSlot m1.windows m1.windowWithVisibleTooltip.toNat
                (some w.closeTooltip)
              windowWithVisibleTooltip := NO_VALUE }
    | none => .error "TypeError: cannot call closeTooltip of undefined"
  else
    .ok m1

/-- `_showTooltip(zIndex)` (the show-timer callback body): asks the
window in slot `zIndex` for a tooltip; on acceptance records it as the
window with the visible tooltip and arms the close timer.  There is no
range check on `zIndex`. -/
def _showTooltip (m : WindowManager) (zIndex : Int) : Except String WindowManager :=
  match getSlot m.windows zIndex with
  | some w =>
    let ws := w.showTooltip
    let m1 := { m with windows := setSlot m.windows zIndex.toNat (some ws.1) }
    if ws.2 then
      .ok { m1 with windowWithVisibleTooltip := zIndex, closeTooltipPending := true }
    else
      .ok m1
  | none => .error "TypeError: cannot call showTooltip of undefined"

/-- `Timer.start(args)` for the show-tooltip timer: arming is a no-op
while the timer is already pending. -/
def startShowTooltipTimer (m : WindowManager) (zIndex : Int) : WindowManager :=
  match m.showTooltipPending with
  | some _ => m
  | none => { m with showTooltipPending := some zIndex }

/-- The show-tooltip timer firing (`Timer._stub`): the timer clears its
own pending state, then runs the `_showTooltip` callback with the stored
payload. -/
def fireShowTooltipTimer (m : WindowManager) : Except String WindowManager :=
  match m.showTooltipPending with
  | some z => _showTooltip { m with showTooltipPending := none } z
  | none => .ok m

end WindowManager

/-- A pointer event as seen by the manager's handlers: the pressed
button (`0` = left, `2` = right) and the page-coordinate position that
`getCursorPos(ev)` computes. -/
structure MouseEvent where
  button : Nat
  pos : CursorPos
  deriving Repr, DecidableEq

namespace WindowManager

/-- `_moveWindow(ev)`: forwards the cursor position to the active
window. -/
def _moveWindow (m : WindowManager) (ev : MouseEvent) : Except String WindowManager :=
  match getSlot m.windows m.activeWindow with
  | some w =>
    .ok { m with
            windows := setSlot m.windows m.activeWindow.toNat
              (some (w.updateWindowPosition ev.pos)) }
  | none => .error "TypeError: cannot call updateWindowPosition of undefined"

/-- `_resizeWindow(ev)`: forwards the cursor position and the cursor
state captured at session start to the active window. -/
def _resizeWindow (m : WindowManager) (ev : MouseEvent) : Except String WindowManager :=
  match getSlot m.windows m.activeWindow with
  | some w =>
    .ok { m with
            windows := setSlot m.windows m.activeWindow.toNat
              (some (w.updateWindowSize ev.pos m.currCursor)) }
  | none => .error "TypeError: cannot call updateWindowSize of undefined"

/-- `_titlebarButtonMouseMove()`: keeps the pressed button's visual
state in sync with whether the pointer is still hovering it. -/
def _titlebarButtonMouseMove (m : WindowManager) : Except String WindowManager :=
  match getSlot m.windows m.activeWindow with
  | some w =>
    if w.hoverTitlebarButton ≠ m.pressedButton then
      .ok { m with
              windows := setSlot m.windows m.activeWindow.toNat
                (some w.releaseTitlebarButton) }
    else
      .ok { m with
              windows := setSlot m.windows m.activeWindow.toNat
                (some w.pushTitlebarButton.1) }
  | none => .error "TypeError: cannot call releaseTitlebarButton of undefined"

/-- `_handleHoverOnWindow(ev, zIndex)`: cursor-style derivation plus the
tooltip protocol for the hovered window. -/
def _handleHoverOnWindow (m : WindowManager) (ev : MouseEvent) (zIndex : Nat) :
    Except String WindowManager :=
  match getSlot m.windows (zIndex : Int) with
  | none => .error "TypeError: cannot read properties of undefined"
  | some win =>
    let m := { m with cursorPos := some ev.pos }
    let windowCursor := win.getCursorState ev.pos
    let m :=
      if !win.isMaximized ∧ !win.isMinimized then
        if windowCursor ≠ m.currCursor then { m with currCursor := windowCursor } else m
      else m
    if windowCursor = .regular ∧ win.cursorOnTitlebar then
      let m := m._resetCursor
      if !win.cursorOnTitlebarButtons ∧ win.titleOverflowing then
        if m.windowWithVisibleTooltip = (zIndex : Int) then
          if !win.tooltipOnTitle then do
            let m ← m._resetTooltip
            m._showTooltip (zIndex : Int)
          else .ok m
        else do
          let m ← m._resetTooltip
          .ok (m.startShowTooltipTimer (zIndex : Int))
      else if win.cursorOnTitlebarButtons then
        let win1 :=
          if win.hoverTitlebarButton = NO_VALUE then
            { win with hoverTitlebarButton := titlebarButtons_maximize }
          else win
        let m := { m with windows := setSlot m.windows zIndex (some win1) }
        if m.windowWithVisibleTooltip = (zIndex : Int) then
          if win1.tooltipOnTitlebarButton ≠ win1.hoverTitlebarButton then do
            let m ← m._resetTooltip
            m._showTooltip (zIndex : Int)
          else .ok m
        else do
          let m ← m._resetTooltip
          .ok (m.startShowTooltipTimer (zIndex : Int))
      else
        m._resetTooltip
    else
      m._resetTooltip

/-- The scan loop of `_defaultMouseMove(ev)`: the first window whose
`cursorOnWindow` flag is set receives the hover handling; if none is
found the tooltip and cursor are reset.  The final argument is the
remaining iteration count `zIndexTop - i` (structural fuel). -/
def _defaultMouseMoveLoop (m : WindowManager) (ev : MouseEvent) (i : Nat) :
    Nat → Except String WindowManager
  | 0 => do
    let m1 ← m._resetTooltip
    .ok m1._resetCursor
  | fuel + 1 =>
    match getSlot m.windows (i : Int) with
    | none => .error "TypeError: cannot read properties of undefined"
    | some w =>
      if w.cursorOnWindow then m._handleHoverOnWindow ev i
      else m._defaultMouseMoveLoop ev (i + 1) fuel

/-- `_defaultMouseMove(ev)`. -/
def _defaultMouseMove (m : WindowManager) (ev : MouseEvent) : Except String WindowManager :=
  m._defaultMouseMoveLoop ev 0 m.zIndexTop

/-- `_onMouseMove(ev)`: dispatches to the currently installed
`moveAction` handler. -/
def onMouseMove (m : WindowManager) (ev : MouseEvent) : Except String WindowManager :=
  match m.moveAction with
  | .defaultMove => m._defaultMouseMove ev
  | .moveWindow => m._moveWindow ev
  | .resizeWindow => m._resizeWindow ev
  | .titlebarButtonMove => m._titlebarButtonMouseMove
  | .emptyHandler => .ok m

/-- `_onMouseUp(ev)`: ends the current session.  A move session gets the
one-time off-screen correction; a titlebar-button session releases the
button and commits the click only when the pointer still hovers the
originally pressed button; afterwards the manager returns to the idle
handler. -/
def onMouseUp (m : WindowManager) (ev : MouseEvent) : Except String WindowManager :=
  let winOpt := getSlot m.windows m.activeWindow
  let finish := fun (mm : WindowManager) =>
    { mm with activeWindow := NO_VALUE, moveAction := MoveAction.defaultMove }
  if ev.button = 0 then
    if m.moveAction = .moveWindow then
      match winOpt with
      | some w =>
        .ok (finish { m with
                        windows := setSlot m.windows m.activeWindow.toNat
                          (some w.fixOffScreenMove) })
      | none => .error "TypeError: cannot call fixOffScreenMove of undefined"
    else if m.moveAction = .titlebarButtonMove then
      match winOpt with
      | some w =>
        let w1 := w.releaseTitlebarButton
        let w2 :=
          if w1.hoverTitlebarButton = m.pressedButton then
            w1.handleTitlebarButtonClick m.pressedButton
          else w1
        .ok (finish { m with
                        windows := setSlot m.windows m.activeWindow.toNat (some w2) })
      | none => .error "TypeError: cannot call releaseTitlebarButton of undefined"
    else
      .ok (finish m)
  else if ev.button = 2 ∧ m.rightClickTitlebar then
    match winOpt with
    | some _ => .ok (finish { m with rightClickTitlebar := false })
    | none => .error "TypeError: cannot read cursorOnTitlebar of undefined"
  else
    .ok (finish m)

/-- The matched-window branch body of `_onMouseDown`'s scan loop (the
code that runs for the first window `i` with `cursorOnWindow` set,
before `activeWindow` is assigned). -/
def onMouseDownBranch (m : WindowManager) (ev : MouseEvent) (i : Nat)
    (win : ManagedWindow) : WindowManager :=
  if ev.button = 0 then
    if m.currCursor = .regular then
      if win.cursorOnTitlebar then
        if win.cursorOnTitlebarButtons then
          let wb := win.pushTitlebarButton
          { m with
              windows := setSlot m.windows i (some wb.1)
              pressedButton := wb.2
              moveAction := .titlebarButtonMove }
        else
          if !win.isMaximized then
            { m with
                windows := setSlot m.windows i (some (win.setupCursorOffset ev.pos none))
                moveAction := .moveWindow }
          else m
      else m
    else
      if !win.isMaximized ∧ !win.isMinimized then
        { m with
            windows := setSlot m.windows i
              (some (win.setupCursorOffset ev.pos (some m.currCursor)))
            moveAction := .resizeWindow }
      else m
  else if ev.button = 2 then
    if !win.cursorOnTitlebarButtons ∧ win.cursorOnTitlebar then
      { m with rightClickTitlebar := true, moveAction := .emptyHandler }
    else m
  else m

/-- The scan loop of `_onMouseDown`: examines slots `i, i+1, ...` up to
`zIndexTop` and stops at the first window reporting the cursor over it,
recording it in `activeWindow`.  The final argument is the remaining
iteration count `zIndexTop - i` (structural fuel). -/
def onMouseDownLoop (m : WindowManager) (ev : MouseEvent) (i : Nat) :
    Nat → Except String WindowManager
  | 0 => .ok m
  | fuel + 1 =>
    match getSlot m.windows (i : Int) with
    | none => .error "TypeError: cannot read cursorOnWindow of undefined"
    | some win =>
      if win.cursorOnWindow then
        .ok { m.onMouseDownBranch ev i win with activeWindow := (i : Int) }
      else
        m.onMouseDownLoop ev (i + 1) fuel

/-- `_onMouseDown(ev)`: cancels the show-tooltip timer, resets the
tooltip, scans for the window under the pointer, and either raises the
matched window to the top of the z-order or defocuses the top window
(`this.windows[this.zIndexTop - 1]`, which is slot `-1`, i.e.
`undefined`, when no window is registered). -/
def onMouseDown (m : WindowManager) (ev : MouseEvent) : Except String WindowManager := do
  let m1 := { m with showTooltipPending := none }
  let m2 ← m1._resetTooltip
  let m3 ← m2.onMouseDownLoop ev 0 m2.zIndexTop
  if m3.activeWindow ≠ NO_VALUE then
    .ok { m3.bringWindowToTop m3.activeWindow.toNat with
            activeWindow := (m3.zIndexTop : Int) - 1 }
  else
    match getSlot m3.windows ((m3.zIndexTop : Int) - 1) with
    | some w =>
      .ok { m3 with
              windows := setSlot m3.windows (m3.zIndexTop - 1)
                (some (w.updateWindowFocus false)) }
    | none => .error "TypeError: cannot call updateWindowFocus of undefined"

end WindowManager

/-! ## Concrete fixtures used by witnesses and counterexamples -/

/-- A rect built with every constructor argument defaulted. -/
def sampleRect : DialogRect := DialogRect.init none none none none none none none

/-- A freshly mounted window adapter with identity `n` (all hover flags
clear, default rect). -/
def mkTestWindow (n : Nat) : ManagedWindow :=
  { id := n
    hasFocus := false
    zIndex := 0
    rc := sampleRect
    cursorOnWindow := false
    cursorOnTitlebar := false
    cursorOnTitlebarButtons := false
    hoverTitlebarButton := NO_VALUE
    isMaximized := false
    isMinimized := false
    titleOverflowing := false
    activeTitlebarButton := NO_VALUE
    tooltipOnTitlebarButton := NO_VALUE
    tooltipOnTitle := false
    tooltipVisible := false
    clickedButtons := []
    fixCount := 0 }

/-! ## Derived definitions used to state the claims -/

/-- Registers each window in `ws` in order (sequential
`registerWindow(w)` calls with the default `checkInheritance`),
collecting the returned indices. -/
def registerAll (m : WindowManager) (ws : List ManagedWindow) :
    WindowManager × List Int :=
  match ws with
  | [] => (m, [])
  | w :: rest =>
    let p := m.registerWindow w false
    let q := registerAll p.1 rest
    (q.1, p.2 :: q.2)

/-- The value stored in slot `i` of a registry of `n` sequentially
registered windows whose original adapter was `w`: it has z-index `i`
and focus exactly when it is the top window. -/
def storedWindow (w : ManagedWindow) (i n : Nat) : ManagedWindow :=
  { w with zIndex := (i : Int), hasFocus := decide (i + 1 = n) }

/-- The registry of a manager that sequentially registered exactly the
windows of `L` and nothing else (no stale slots). -/
def registryShape (m : WindowManager) (L : List ManagedWindow) : Prop :=
  m.windows.length = L.length ∧ m.zIndexTop = L.length ∧
  ∀ i (h : i < L.length),
    getSlot m.windows (i : Int) = some (storedWindow L[i] i L.length)

/-- The derived-field invariant of `DialogRect`. -/
def derivedFieldsOk (r : DialogRect) : Prop :=
  r.right = r.left + r.width ∧ r.bottom = r.top + r.height

instance (r : DialogRect) : Decidable (derivedFieldsOk r) := by
  unfold derivedFieldsOk; infer_instance

/-- Every live registry slot (index in `[0, zIndexTop)`) holds a window
object. -/
def livePopulated (m : WindowManager) : Prop :=
  ∀ i : Nat, i < m.zIndexTop → (getSlot m.windows (i : Int)).isSome

/-- The environment action of the pointer crossing titlebar buttons: the
view layer's mouse-enter/leave handlers set the ACTIVE window's
`hoverTitlebarButton` before the manager's mouse-move handler runs. -/
def WindowManager.setHoverOnActive (m : WindowManager) (h : Int) : WindowManager :=
  match getSlot m.windows m.activeWindow with
  | some w =>
    { m with
        windows := setSlot m.windows m.activeWindow.toNat
          (some { w with hoverTitlebarButton := h }) }
  | none => m

/-- A drag: the manager's mouse-move handler applied to each pointer
position in turn. -/
def runMouseMoves (m : WindowManager) (evs : List MouseEvent) :
    Except String WindowManager :=
  match evs with
  | [] => .ok m
  | ev :: rest => do
    let m1 ← m.onMouseMove ev
    runMouseMoves m1 rest

/-- The pure effect of a drag on the dragged window itself: one
`updateWindowPosition` per pointer position. -/
def foldMoves (w : ManagedWindow) (evs : List MouseEvent) : ManagedWindow :=
  match evs with
  | [] => w
  | ev :: rest => foldMoves (w.updateWindowPosition ev.pos) rest

/-- A titlebar-button-press drag: before each mouse-move the environment
records which button (if any) the pointer is hovering, then the
manager's mouse-move handler runs. -/
def runButtonMoves (m : WindowManager) (hovers : List Int) :
    Except String WindowManager :=
  match hovers with
  | [] => .ok m
  | h :: rest => do
    let m1 := m.setHoverOnActive h
    let m2 ← m1.onMouseMove { button := 0, pos := ⟨0, 0⟩ }
    runButtonMoves m2 rest

/-! ## Slot-access lemmas -/

theorem getSlot_natCast (ws : List (Option ManagedWindow)) (i : Nat) :
    getSlot ws (i : Int) = (ws[i]?).getD none := by
  simp [getSlot, List.getD_eq_getElem?_getD]

theorem getSlot_set_self (ws : List (Option ManagedWindow)) (i : Nat)
    (v : Option ManagedWindow) (h : i < ws.length) :
    getSlot (ws.set i v) (i : Int) = v := by
  rw [getSlot_natCast, List.getElem?_set_self (by simpa using h)]
  rfl

theorem getSlot_set_ne (ws : List (Option ManagedWindow)) (i j : Nat)
    (v : Option ManagedWindow) (h : i ≠ j) :
    getSlot (ws.set i v) (j : Int) = getSlot ws (j : Int) := by
  rw [getSlot_natCast, getSlot_natCast, List.getElem?_set_ne h]

theorem getSlot_append_left (ws ws2 : List (Option ManagedWindow)) (i : Nat)
    (h : i < ws.length) :
    getSlot (ws ++ ws2) (i : Int) = getSlot ws (i : Int) := by
  rw [getSlot_natCast, getSlot_natCast, List.getElem?_append_left h]

theorem getSlot_concat_self (ws : List (Option ManagedWindow))
    (v : Option ManagedWindow) :
    getSlot (ws ++ [v]) (ws.length : Int) = v := by
  rw [getSlot_natCast, List.getElem?_concat_length]
  rfl

theorem setSlot_of_lt (ws : List (Option ManagedWindow)) (i : Nat)
    (v : Option ManagedWindow) (h : i < ws.length) :
    setSlot ws i v = ws.set i v := by
  simp [setSlot, h]

theorem setSlot_of_eq (ws : List (Option ManagedWindow))
    (v : Option ManagedWindow) :
    setSlot ws ws.length v = ws ++ [v] := by
  simp [setSlot]

/-! ## Helper lemmas about `DialogRect` -/

namespace DialogRect

theorem _update_minWidth (r : DialogRect) (x y w h : Option Int) :
    (r._update x y w h).minWidth = r.minWidth := rfl

theorem _update_minHeight (r : DialogRect) (x y w h : Option Int) :
    (r._update x y w h).minHeight = r.minHeight := rfl

theorem _update_width (r : DialogRect) (x y w h : Option Int) :
    (r._update x y w h).width = if jsTruthy w then w.getD 0 else r.width := rfl

theorem _update_height (r : DialogRect) (x y w h : Option Int) :
    (r._update x y w h).height = if jsTruthy h then h.getD 0 else r.height := rfl

theorem _resizeRight_ge (r : DialogRect) (x : Int) :
    r.minWidth ≤ r._resizeRight x := by
  simp only [_resizeRight]
  split <;> omega

theorem _resizeBottom_ge (r : DialogRect) (y : Int) :
    r.minHeight ≤ r._resizeBottom y := by
  simp only [_resizeBottom]
  split <;> omega

theorem _resizeLeft_fst_ge (r : DialogRect) (x : Int) :
    r.minWidth ≤ (r._resizeLeft x).1 := by
  simp only [_resizeLeft]
  split_ifs <;> simp <;> omega

theorem _resizeTop_fst_ge (r : DialogRect) (y : Int) :
    r.minHeight ≤ (r._resizeTop y).1 := by
  simp only [_resizeTop]
  split_ifs <;> simp <;> omega

/-- If the width argument passed to `_update` is either absent or at
least `minWidth`, the updated width stays at or above `minWidth`
(an argument of `0` is falsy and leaves the old width in place). -/
theorem min_le_update_width (r : DialogRect) (x y w h : Option Int)
    (hr : r.minWidth ≤ r.width)
    (hw : w = none ∨ ∃ v, w = some v ∧ r.minWidth ≤ v) :
    (r._update x y w h).minWidth ≤ (r._update x y w h).width := by
  rw [_update_minWidth, _update_width]
  rcases hw with rfl | ⟨v, rfl, hv⟩
  · simpa [jsTruthy] using hr
  · by_cases h0 : v = 0
    · subst h0; simpa [jsTruthy] using hr
    · simpa [jsTruthy, h0] using hv

/-- Height counterpart of `min_le_update_width`. -/
theorem min_le_update_height (r : DialogRect) (x y w h : Option Int)
    (hr : r.minHeight ≤ r.height)
    (hh : h = none ∨ ∃ v, h = some v ∧ r.minHeight ≤ v) :
    (r._update x y w h).minHeight ≤ (r._update x y w h).height := by
  rw [_update_minHeight, _update_height]
  rcases hh with rfl | ⟨v, rfl, hv⟩
  · simpa [jsTruthy] using hr
  · by_cases h0 : v = 0
    · subst h0; simpa [jsTruthy] using hr
    · simpa [jsTruthy, h0] using hv

end DialogRect

/-! ## Claim C1 -/

/-- C1: for every `DialogRect` satisfying `width ≥ minWidth` and
`height ≥ minHeight`, and for every cursor position and resize type
(all eight edges/corners and `regular`), the rect produced by
`resizeToCursor` still satisfies `width ≥ minWidth` and
`height ≥ minHeight`. -/
theorem C1_resize_respects_minimums (r : DialogRect) (pos : CursorPos)
    (t : CursorState) (hw : r.minWidth ≤ r.width) (hh : r.minHeight ≤ r.height) :
    (r.resizeToCursor pos t).minWidth ≤ (r.resizeToCursor pos t).width ∧
    (r.resizeToCursor pos t).minHeight ≤ (r.resizeToCursor pos t).height := by
  cases t <;> simp only [DialogRect.resizeToCursor] <;>
    exact ⟨DialogRect.min_le_update_width _ _ _ _ _ hw
             (by first
                | exact Or.inl rfl
                | exact Or.inr ⟨_, rfl, DialogRect._resizeRight_ge r _⟩
                | exact Or.inr ⟨_, rfl, DialogRect._resizeLeft_fst_ge r _⟩),
           DialogRect.min_le_update_height _ _ _ _ _ hh
             (by first
                | exact Or.inl rfl
                | exact Or.inr ⟨_, rfl, DialogRect._resizeBottom_ge r _⟩
                | exact Or.inr ⟨_, rfl, DialogRect._resizeTop_fst_ge r _⟩)⟩

/-- Witness for C1 at a concrete input: the default rect dragged far
past its top-left corner. -/
theorem C1_resize_respects_minimums_witness :
    (sampleRect.minWidth ≤ sampleRect.width ∧
     sampleRect.minHeight ≤ sampleRect.height) ∧
    ((sampleRect.resizeToCursor ⟨-50, -50⟩ .topleft).minWidth ≤
       (sampleRect.resizeToCursor ⟨-50, -50⟩ .topleft).width ∧
     (sampleRect.resizeToCursor ⟨-50, -50⟩ .topleft).minHeight ≤
       (sampleRect.resizeToCursor ⟨-50, -50⟩ .topleft).height) :=
  ⟨⟨by decide, by decide⟩,
   C1_resize_respects_minimums sampleRect ⟨-50, -50⟩ .topleft (by decide) (by decide)⟩

/-! ## Claim C4 -/

/-- C4 counterexample: a user minimum width of `50` (positive but below
the builtin default `118`) yields `minWidth = 50 + 2·borderWidth = 54`,
not `max 50 118 + 2·borderWidth = 122` as the claim states. -/
theorem C4_counterexample :
    ¬ ((DialogRect.init none none none none (some 50) none none).minWidth =
       max 50 defaultRect_min_w +
         2 * (DialogRect.init none none none none (some 50) none none).borderWidth) := by
  decide

/-- C4 (amended): `minWidth` equals the user minimum width when one is
supplied and positive, otherwise the builtin default (`118`), plus
`2·borderWidth` in either case; likewise `minHeight` with default `23`. -/
theorem C4_min_size_from_user_or_default (x y w h mw mh bw : Option Int) :
    (∀ v, mw = some v → 0 < v →
       (DialogRect.init x y w h mw mh bw).minWidth =
         v + 2 * (DialogRect.init x y w h mw mh bw).borderWidth) ∧
    (∀ v, mw = some v → v ≤ 0 →
       (DialogRect.init x y w h mw mh bw).minWidth =
         defaultRect_min_w + 2 * (DialogRect.init x y w h mw mh bw).borderWidth) ∧
    (mw = none →
       (DialogRect.init x y w h mw mh bw).minWidth =
         defaultRect_min_w + 2 * (DialogRect.init x y w h mw mh bw).borderWidth) ∧
    (∀ v, mh = some v → 0 < v →
       (DialogRect.init x y w h mw mh bw).minHeight =
         v + 2 * (DialogRect.init x y w h mw mh bw).borderWidth) ∧
    (∀ v, mh = some v → v ≤ 0 →
       (DialogRect.init x y w h mw mh bw).minHeight =
         defaultRect_min_h + 2 * (DialogRect.init x y w h mw mh bw).borderWidth) ∧
    (mh = none →
       (DialogRect.init x y w h mw mh bw).minHeight =
         defaultRect_min_h + 2 * (DialogRect.init x y w h mw mh bw).borderWidth) := by
  refine ⟨?_, ?_, ?_, ?_, ?_, ?_⟩ <;>
    first
      | (rintro v rfl hv
         simp only [DialogRect.init]
         rw [if_pos ⟨by omega, hv⟩])
      | (rintro v rfl hv
         simp only [DialogRect.init]
         rw [if_neg (by omega)])
      | (rintro rfl
         simp only [DialogRect.init])

/-- Witness for the amended C4 at `min_w = 50`. -/
theorem C4_min_size_witness :
    (DialogRect.init none none none none (some 50) none none).minWidth =
      50 + 2 * (DialogRect.init none none none none (some 50) none none).borderWidth :=
  (C4_min_size_from_user_or_default none none none none (some 50) none none).1
    50 rfl (by decide)

/-! ## Claim C5 -/

/-- C5: dragging the top edge yields `new height = old bottom − (pointer
y floored at 1)`; when that height would fall below `minHeight` the
height pins at `minHeight` with the bottom edge fixed
(`new top = bottom − minHeight`), and while pinned, further pointer
motion moves neither `top` (top edge) nor `left` (left edge, which pins
symmetrically against the fixed right edge). -/
theorem C5_top_left_resize_pins (r : DialogRect)
    (hb : r.bottom = r.top + r.height) (hr : r.right = r.left + r.width) :
    (∀ cy : Int,
       (r.minHeight ≤ r.bottom - (if cy ≤ 0 then 1 else cy) →
          r._resizeTop cy =
            (r.bottom - (if cy ≤ 0 then 1 else cy), if cy ≤ 0 then 1 else cy)) ∧
       (r.bottom - (if cy ≤ 0 then 1 else cy) < r.minHeight →
          r._resizeTop cy = (r.minHeight, r.bottom - r.minHeight))) ∧
    (∀ cx : Int,
       (r.minWidth ≤ r.right - (if cx ≤ 0 then 1 else cx) →
          r._resizeLeft cx =
            (r.right - (if cx ≤ 0 then 1 else cx), if cx ≤ 0 then 1 else cx)) ∧
       (r.right - (if cx ≤ 0 then 1 else cx) < r.minWidth →
          r._resizeLeft cx = (r.minWidth, r.right - r.minWidth))) ∧
    (∀ cy1 cy2 : Int,
       r.bottom - (if cy1 ≤ 0 then 1 else cy1) < r.minHeight →
       r.bottom - (if cy2 ≤ 0 then 1 else cy2) < r.minHeight →
       (r._resizeTop cy1).2 = (r._resizeTop cy2).2) ∧
    (∀ cx1 cx2 : Int,
       r.right - (if cx1 ≤ 0 then 1 else cx1) < r.minWidth →
       r.right - (if cx2 ≤ 0 then 1 else cx2) < r.minWidth →
       (r._resizeLeft cx1).2 = (r._resizeLeft cx2).2) := by
  have htop : ∀ cy : Int,
      (r.minHeight ≤ r.bottom - (if cy ≤ 0 then 1 else cy) →
         r._resizeTop cy =
           (r.bottom - (if cy ≤ 0 then 1 else cy), if cy ≤ 0 then 1 else cy)) ∧
      (r.bottom - (if cy ≤ 0 then 1 else cy) < r.minHeight →
         r._resizeTop cy = (r.minHeight, r.bottom - r.minHeight)) := by
    intro cy
    rw [hb]
    simp only [DialogRect._resizeTop]
    constructor <;> intro hcy <;> split_ifs at hcy ⊢ <;>
      simp only [Prod.mk.injEq, true_and, and_true] <;> omega
  have hleft : ∀ cx : Int,
      (r.minWidth ≤ r.right - (if cx ≤ 0 then 1 else cx) →
         r._resizeLeft cx =
           (r.right - (if cx ≤ 0 then 1 else cx), if cx ≤ 0 then 1 else cx)) ∧
      (r.right - (if cx ≤ 0 then 1 else cx) < r.minWidth →
         r._resizeLeft cx = (r.minWidth, r.right - r.minWidth)) := by
    intro cx
    rw [hr]
    simp only [DialogRect._resizeLeft]
    constructor <;> intro hcx <;> split_ifs at hcx ⊢ <;>
      simp only [Prod.mk.injEq, true_and, and_true] <;> omega
  refine ⟨htop, hleft, ?_, ?_⟩
  · intro cy1 cy2 h1 h2
    rw [(htop cy1).2 h1, (htop cy2).2 h2]
  · intro cx1 cx2 h1 h2
    rw [(hleft cx1).2 h1, (hleft cx2).2 h2]

/-- Witness for C5: the default rect, whose derived fields satisfy the
hypotheses, pinned by a pointer dragged past the bottom edge. -/
theorem C5_top_left_resize_pins_witness :
    (sampleRect.bottom = sampleRect.top + sampleRect.height ∧
     sampleRect.right = sampleRect.left + sampleRect.width) ∧
    (sampleRect.bottom - (500 : Int) < sampleRect.minHeight →
       sampleRect._resizeTop 500 =
         (sampleRect.minHeight, sampleRect.bottom - sampleRect.minHeight)) :=
  ⟨⟨by decide, by decide⟩, by
    have h := ((C5_top_left_resize_pins sampleRect (by decide) (by decide)).1 500).2
    simpa using h⟩

/-! ## Claim C10 -/

/-- C10: every geometry-changing `DialogRect` operation (construction,
`_update`, `resizeToCursor`, `moveToCursor`, `coverViewport`,
`moveWithinViewport`) re-establishes `right = left + width` and
`bottom = top + height`. -/
theorem C10_derived_fields_invariant (r : DialogRect)
    (x y w h mw mh bw : Option Int) (pos : CursorPos) (t : CursorState)
    (vw vh : Int) :
    derivedFieldsOk (DialogRect.init x y w h mw mh bw) ∧
    derivedFieldsOk (r._update x y w h) ∧
    derivedFieldsOk (r.resizeToCursor pos t) ∧
    derivedFieldsOk (r.moveToCursor pos) ∧
    derivedFieldsOk (r.coverViewport vw vh) ∧
    derivedFieldsOk (r.moveWithinViewport) := by
  refine ⟨⟨Int.add_comm _ _, rfl⟩, ⟨Int.add_comm _ _, rfl⟩, ?_,
    ⟨Int.add_comm _ _, rfl⟩, ⟨Int.add_comm _ _, rfl⟩, ⟨Int.add_comm _ _, rfl⟩⟩
  cases t <;> exact ⟨Int.add_comm _ _, rfl⟩

/-! ## Registration lemmas (claims C2, C3) -/

theorem registryShape_new : registryShape WindowManager.new [] :=
  ⟨rfl, rfl, fun i h => absurd h (Nat.not_lt_zero i)⟩

/-- One `registerWindow` step on a well-shaped registry: it returns the
next z-index and extends the shape by the new window. -/
theorem registerWindow_spec (m : WindowManager) (L : List ManagedWindow)
    (w : ManagedWindow) (hs : registryShape m L) :
    (m.registerWindow w false).2 = (L.length : Int) ∧
    registryShape (m.registerWindow w false).1 (L ++ [w]) := by
  obtain ⟨hlen, htop, hslots⟩ := hs
  obtain ⟨ws, n, cc, ma, cp, pb, rct, stp, ctp, wvt, mwz, aw⟩ := m
  simp only at hlen htop hslots
  subst htop
  simp only [WindowManager.registerWindow, Bool.not_false, if_true]
  rcases Nat.eq_zero_or_pos L.length with h0 | hpos
  · -- empty registry: the window is pushed into slot 0
    have hL : L = [] := List.length_eq_zero.mp h0
    subst hL
    have hw : ws = [] := List.length_eq_zero.mp hlen
    subst hw
    refine ⟨trivial, rfl, rfl, ?_⟩
    intro i h
    have hi : i = 0 := by simpa using h
    subst hi
    simp [storedWindow, getSlot, ManagedWindow.updateWindowFocus,
      ManagedWindow.updateWindowZIndex]
  · -- non-empty registry: defocus the old top, push the new window
    have htopslot := hslots (L.length - 1) (by omega)
    have hcast : ((L.length : Int) - 1) = ((L.length - 1 : Nat) : Int) := by omega
    rw [if_pos hpos, hcast, htopslot]
    dsimp only
    set tw1 := some ((storedWindow L[L.length - 1] (L.length - 1) L.length).updateWindowFocus
      false) with htw1
    have hlt : L.length - 1 < ws.length := by omega
    rw [setSlot_of_lt _ _ _ hlt]
    have hlen1 : (ws.set (L.length - 1) tw1).length = L.length := by
      simpa using hlen
    rw [if_pos hlen1]
    set w1 := some ((w.updateWindowFocus true).updateWindowZIndex (L.length : Int)) with hw1
    refine ⟨trivial, by simp [hlen], by simp, ?_⟩
    intro i h
    simp only [List.length_append, List.length_singleton] at h
    rcases Nat.lt_or_ge i L.length with hi | hi
    · -- slots below the new top keep (or lose) focus as required
      rw [getSlot_append_left _ _ _ (by omega)]
      have hble : i < (L ++ [w]).length := by simpa using h
      have hgl : (L ++ [w])[i] = L[i] :=
        List.getElem_append_left hi
      rw [hgl]
      rcases eq_or_ne i (L.length - 1) with hieq | hine
      · subst hieq
        rw [getSlot_set_self _ _ _ hlt, htw1]
        simp only [storedWindow, ManagedWindow.updateWindowFocus, List.length_append,
          List.length_singleton, Option.some.injEq]
        have d1 : decide (L.length - 1 + 1 = L.length + 1) = false := by
          simp only [decide_eq_false_iff_not]
          omega
        rw [d1]
      · rw [getSlot_set_ne _ _ _ _ (fun hc => hine hc.symm), hslots i hi]
        simp only [storedWindow, List.length_append, List.length_singleton,
          Option.some.injEq]
        have d1 : decide (i + 1 = L.length) = false := by
          simp only [decide_eq_false_iff_not]
          omega
        have d2 : decide (i + 1 = L.length + 1) = false := by
          simp only [decide_eq_false_iff_not]
          omega
        rw [d1, d2]
    · -- the new top slot holds the freshly registered, focused window
      have hieq : i = L.length := by omega
      subst hieq
      have hconcat := getSlot_concat_self (ws.set (L.length - 1) tw1) w1
      rw [hlen1] at hconcat
      rw [hconcat, hw1]
      have hble : L.length < (L ++ [w]).length := by simp
      have hgl : (L ++ [w])[L.length] = w := by
        simp
      rw [hgl]
      simp only [storedWindow, ManagedWindow.updateWindowFocus,
        ManagedWindow.updateWindowZIndex, List.length_append, List.length_singleton,
        Option.some.injEq]
      simp


/-- Folding `registerWindow_spec` over a list of windows. -/
theorem registerAll_spec (ws : List ManagedWindow) (m : WindowManager)
    (L : List ManagedWindow) (hs : registryShape m L) :
    registryShape (registerAll m ws).1 (L ++ ws) ∧
    (registerAll m ws).2 = (List.range' L.length ws.length).map Int.ofNat := by
  induction ws generalizing m L with
  | nil => simpa [registerAll] using hs
  | cons w rest ih =>
    obtain ⟨hret, hshape⟩ := registerWindow_spec m L w hs
    obtain ⟨ih1, ih2⟩ := ih (m.registerWindow w false).1 (L ++ [w]) hshape
    constructor
    · simpa [registerAll, List.append_assoc] using ih1
    · show (m.registerWindow w false).2 ::
          (registerAll (m.registerWindow w false).1 rest).2 = _
      rw [hret, show List.range' L.length (w :: rest).length =
        L.length :: List.range' (L.length + 1) rest.length from rfl, List.map_cons]
      refine List.cons_eq_cons.mpr ⟨rfl, ?_⟩
      simpa using ih2

/-! ## Claim C3 -/

/-- C3: registering `N ≥ 1` windows in sequence from an empty manager
returns z-indices `0 .. N-1` in registration order, stores each window
with its index as z-index, and leaves exactly the most recently
registered window focused. -/
theorem C3_sequential_registration (ws : List ManagedWindow) (_hne : ws ≠ []) :
    (registerAll WindowManager.new ws).2 =
      (List.range ws.length).map Int.ofNat ∧
    (registerAll WindowManager.new ws).1.zIndexTop = ws.length ∧
    ∀ i (h : i < ws.length),
      getSlot (registerAll WindowManager.new ws).1.windows (i : Int) =
        some { ws[i] with zIndex := (i : Int), hasFocus := decide (i + 1 = ws.length) } := by
  obtain ⟨⟨hlen, htop, hslots⟩, hrets⟩ :=
    registerAll_spec ws WindowManager.new [] registryShape_new
  refine ⟨?_, by simpa using htop, ?_⟩
  · rw [hrets, List.range_eq_range']
    rfl
  · intro i h
    have := hslots i (by simpa using h)
    simpa [storedWindow] using this

/-- Witness for C3: three concrete windows registered in order. -/
theorem C3_sequential_registration_witness :
    ([mkTestWindow 0, mkTestWindow 1, mkTestWindow 2] ≠ ([] : List ManagedWindow)) ∧
    (registerAll WindowManager.new [mkTestWindow 0, mkTestWindow 1, mkTestWindow 2]).2 =
      [0, 1, 2] ∧
    getSlot (registerAll WindowManager.new
        [mkTestWindow 0, mkTestWindow 1, mkTestWindow 2]).1.windows 2 =
      some { mkTestWindow 2 with zIndex := 2, hasFocus := true } := by
  have h := C3_sequential_registration [mkTestWindow 0, mkTestWindow 1, mkTestWindow 2]
    (by decide)
  refine ⟨by decide, by simpa using h.1, ?_⟩
  have h2 := h.2.2 2 (by decide)
  simpa using h2

/-! ## Claim C2 -/

/-- C2, evaluated at the failing input (three windows registered, the
bottom one unregistered, so `k = 0 < n - 1 = 2`): the removal and the
re-indexing happen as claimed, but afterwards *no* surviving window is
focused — the loop in `_bringWindowToTop` defocuses the window that
lands on the new top index, and the focus grant goes to the removed
window sitting in the stale slot.  The repository's own test
(`test.js`, "check that only the next top window gains focus") expects
the surviving top window to be focused. -/
theorem C2_unregister_leaves_no_survivor_focused :
    (let m' := ((registerAll WindowManager.new
        [mkTestWindow 0, mkTestWindow 1, mkTestWindow 2]).1).unregisterWindow 0
     m'.zIndexTop = 2 ∧
     getSlot m'.windows 0 = some { mkTestWindow 1 with zIndex := 0, hasFocus := false } ∧
     getSlot m'.windows 1 = some { mkTestWindow 2 with zIndex := 1, hasFocus := false } ∧
     getSlot m'.windows 2 = some { mkTestWindow 0 with zIndex := 2, hasFocus := true } ∧
     getSlot m'.windows 3 = none) := by
  decide

/-! ## Claim C8 -/

/-- C8, evaluated at the failing input: a single registered window whose
pointer sits on the titlebar buttons, with the show-tooltip timer armed
with payload `0`.  `unregisterWindow 0` leaves the timer pending (no
cancellation), and when the leaked timer fires it is *not* a no-op:
with `zIndexTop = 0` (index `0` no longer in `[0, topIndex)`), it still
calls `showTooltip` on the stale slot, records the gone window as the
window with the visible tooltip and arms the close timer — there is no
sentinel/index guard in `_showTooltip`. -/
theorem C8_stale_tooltip_timer_fires :
    (let w : ManagedWindow :=
       { mkTestWindow 0 with
           cursorOnTitlebarButtons := true
           hoverTitlebarButton := titlebarButtons_minimize }
     let m1 := ((registerAll WindowManager.new [w]).1).startShowTooltipTimer 0
     let m2 := m1.unregisterWindow 0
     m1.showTooltipPending = some 0 ∧
     m2.showTooltipPending = some 0 ∧
     m2.zIndexTop = 0 ∧
     m2.fireShowTooltipTimer.toOption.map WindowManager.windowWithVisibleTooltip =
       some 0 ∧
     m2.fireShowTooltipTimer.toOption.map WindowManager.closeTooltipPending =
       some true) := by
  decide

/-! ## Claim C9: counterexample -/

/-- C9 counterexample: with zero registered windows, handling a
pointer-down faults — the no-match path dereferences
`windows[zIndexTop - 1]`, i.e. slot `-1`, which is `undefined`. -/
theorem C9_counterexample_zero_windows :
    WindowManager.new.onMouseDown { button := 0, pos := ⟨5, 5⟩ } =
      Except.error "TypeError: cannot call updateWindowFocus of undefined" := by
  rfl

/-! ## Structural lemmas about the manager's mouse handlers -/

theorem length_setSlot_of_lt (ws : List (Option ManagedWindow)) (i : Nat)
    (v : Option ManagedWindow) (h : i < ws.length) :
    (setSlot ws i v).length = ws.length := by
  rw [setSlot_of_lt _ _ _ h, List.length_set]

theorem lt_length_of_getSlot_isSome (ws : List (Option ManagedWindow)) (k : Nat)
    (h : (getSlot ws (k : Int)).isSome) : k < ws.length := by
  rw [getSlot_natCast] at h
  by_contra hnlt
  rw [List.getElem?_eq_none (by omega)] at h
  simp at h

theorem ManagedWindow.closeTooltip_cursorOnWindow (w : ManagedWindow) :
    w.closeTooltip.cursorOnWindow = w.cursorOnWindow := by
  unfold ManagedWindow.closeTooltip
  split <;> rfl

theorem ManagedWindow.pushTitlebarButton_clickedButtons (w : ManagedWindow) :
    w.pushTitlebarButton.1.clickedButtons = w.clickedButtons := by
  unfold ManagedWindow.pushTitlebarButton
  split <;> rfl

theorem foldMoves_fixCount (evs : List MouseEvent) :
    ∀ w : ManagedWindow, (foldMoves w evs).fixCount = w.fixCount := by
  induction evs with
  | nil => intro w; rfl
  | cons ev rest ih => intro w; exact ih (w.updateWindowPosition ev.pos)

theorem foldMoves_clickedButtons (evs : List MouseEvent) :
    ∀ w : ManagedWindow, (foldMoves w evs).clickedButtons = w.clickedButtons := by
  induction evs with
  | nil => intro w; rfl
  | cons ev rest ih => intro w; exact ih (w.updateWindowPosition ev.pos)

/-- `_resetTooltip` on a state whose visible-tooltip sentinel is either
clear or names a populated slot: it succeeds, only cancels the timers
and closes that tooltip, and preserves everything the mouse handlers
depend on. -/
theorem _resetTooltip_spec (m : WindowManager)
    (hw : m.windowWithVisibleTooltip = NO_VALUE ∨
      (0 ≤ m.windowWithVisibleTooltip ∧
        (getSlot m.windows m.windowWithVisibleTooltip).isSome)) :
    ∃ m2, m._resetTooltip = .ok m2 ∧
      m2.zIndexTop = m.zIndexTop ∧
      m2.activeWindow = m.activeWindow ∧
      m2.moveAction = m.moveAction ∧
      m2.currCursor = m.currCursor ∧
      m2.pressedButton = m.pressedButton ∧
      m2.showTooltipPending = none ∧
      m2.windows.length = m.windows.length ∧
      (∀ k : Nat, (getSlot m2.windows (k : Int)).map ManagedWindow.cursorOnWindow =
         (getSlot m.windows (k : Int)).map ManagedWindow.cursorOnWindow) := by
  rcases hw with hw | ⟨hw0, hws⟩
  · refine ⟨{ m with showTooltipPending := none, closeTooltipPending := false }, ?_,
      rfl, rfl, rfl, rfl, rfl, rfl, rfl, fun k => rfl⟩
    simp [WindowManager._resetTooltip, hw]
  · obtain ⟨w, hwsome⟩ := Option.isSome_iff_exists.mp hws
    have hne : m.windowWithVisibleTooltip ≠ NO_VALUE := by
      unfold NO_VALUE
      omega
    have hcastWvt : m.windowWithVisibleTooltip = ((m.windowWithVisibleTooltip.toNat : Nat) : Int) := by
      omega
    have hlt : m.windowWithVisibleTooltip.toNat < m.windows.length := by
      apply lt_length_of_getSlot_isSome
      rw [← hcastWvt, hwsome]
      rfl
    refine ⟨{ m with
        windows := setSlot m.windows m.windowWithVisibleTooltip.toNat (some w.closeTooltip)
        showTooltipPending := none
        closeTooltipPending := false
        windowWithVisibleTooltip := NO_VALUE }, ?_, rfl, rfl, rfl, rfl, rfl, rfl, ?_, ?_⟩
    · simp only [WindowManager._resetTooltip, if_pos hne, hwsome]
    · exact length_setSlot_of_lt _ _ _ hlt
    · intro k
      rcases eq_or_ne k m.windowWithVisibleTooltip.toNat with rfl | hkne
      · rw [setSlot_of_lt _ _ _ hlt, getSlot_set_self _ _ _ hlt, ← hcastWvt, hwsome]
        simp [ManagedWindow.closeTooltip_cursorOnWindow]
      · rw [setSlot_of_lt _ _ _ hlt, getSlot_set_ne _ _ _ _ (fun hc => hkne hc.symm)]

/-- The `_onMouseDown` scan loop when no examined window reports the
pointer over it: the loop returns the state unchanged. -/
theorem onMouseDownLoop_no_match (m : WindowManager) (ev : MouseEvent) :
    ∀ fuel i, i + fuel = m.zIndexTop →
      (∀ k : Nat, i ≤ k → k < m.zIndexTop →
        ∃ u, getSlot m.windows (k : Int) = some u ∧ u.cursorOnWindow = false) →
      m.onMouseDownLoop ev i fuel = .ok m := by
  intro fuel
  induction fuel with
  | zero => intro i _ _; rfl
  | succ f ihf =>
    intro i hsum hall
    obtain ⟨u, hu, hcw⟩ := hall i (le_refl i) (by omega)
    simp only [WindowManager.onMouseDownLoop, hu]
    rw [if_neg (by simp [hcw])]
    exact ihf (i + 1) (by omega) (fun k hk1 hk2 => hall k (by omega) hk2)

/-- The `_onMouseDown` scan loop when the first window reporting the
pointer over it sits at index `j`: the loop stops there, applies the
branch body and records `j` as the active window. -/
theorem onMouseDownLoop_first_match (m : WindowManager) (ev : MouseEvent) :
    ∀ fuel i j win, i + fuel = m.zIndexTop → i ≤ j → j < m.zIndexTop →
      getSlot m.windows (j : Int) = some win → win.cursorOnWindow = true →
      (∀ k : Nat, i ≤ k → k < j →
        ∃ u, getSlot m.windows (k : Int) = some u ∧ u.cursorOnWindow = false) →
      m.onMouseDownLoop ev i fuel =
        .ok { m.onMouseDownBranch ev j win with activeWindow := (j : Int) } := by
  intro fuel
  induction fuel with
  | zero => intro i j win hsum hij hj _ _ _; omega
  | succ f ihf =>
    intro i j win hsum hij hj hwin hcw hbefore
    rcases eq_or_lt_of_le hij with rfl | hlt
    · simp only [WindowManager.onMouseDownLoop, hwin]
      rw [if_pos (by simp [hcw])]
    · obtain ⟨u, hu, hucw⟩ := hbefore i (le_refl i) hlt
      simp only [WindowManager.onMouseDownLoop, hu]
      rw [if_neg (by simp [hucw])]
      exact ihf (i + 1) j win (by omega) (by omega) hj hwin hcw
        (fun k hk1 hk2 => hbefore k (by omega) hk2)

/-- The `_onMouseDown` scan loop over populated slots never faults: it
either finds no match (and is the identity) or stops at the first
match. -/
theorem onMouseDownLoop_ok (m : WindowManager) (ev : MouseEvent) :
    ∀ fuel i, i + fuel = m.zIndexTop →
      (∀ k : Nat, i ≤ k → k < m.zIndexTop → (getSlot m.windows (k : Int)).isSome) →
      ((∀ k : Nat, i ≤ k → k < m.zIndexTop →
          ∃ u, getSlot m.windows (k : Int) = some u ∧ u.cursorOnWindow = false) ∧
        m.onMouseDownLoop ev i fuel = .ok m) ∨
      (∃ j win, i ≤ j ∧ j < m.zIndexTop ∧
        getSlot m.windows (j : Int) = some win ∧ win.cursorOnWindow = true ∧
        m.onMouseDownLoop ev i fuel =
          .ok { m.onMouseDownBranch ev j win with activeWindow := (j : Int) }) := by
  intro fuel
  induction fuel with
  | zero =>
    intro i hsum _
    exact Or.inl ⟨fun k hk1 hk2 => absurd (by omega : k < k) (lt_irrefl k), rfl⟩
  | succ f ihf =>
    intro i hsum hpop
    obtain ⟨u, hu⟩ := Option.isSome_iff_exists.mp (hpop i (le_refl i) (by omega))
    by_cases hcw : u.cursorOnWindow = true
    · refine Or.inr ⟨i, u, le_refl i, by omega, hu, hcw, ?_⟩
      simp only [WindowManager.onMouseDownLoop, hu]
      rw [if_pos (by simp [hcw])]
    · have hstep : m.onMouseDownLoop ev i (f + 1) = m.onMouseDownLoop ev (i + 1) f := by
        simp only [WindowManager.onMouseDownLoop, hu]
        rw [if_neg (by simpa using hcw)]
      rcases ihf (i + 1) (by omega) (fun k hk1 hk2 => hpop k (by omega) hk2) with
        ⟨hall, heq⟩ | ⟨j, win, hij, hj, hwin, hwcw, heq⟩
      · refine Or.inl ⟨?_, by rw [hstep, heq]⟩
        intro k hk1 hk2
        rcases eq_or_lt_of_le hk1 with rfl | hklt
        · exact ⟨u, hu, by simpa using hcw⟩
        · exact hall k (by omega) hk2
      · exact Or.inr ⟨j, win, by omega, hj, hwin, hwcw, by rw [hstep, heq]⟩


/-- The matched-window branch when the press starts a move: left button,
regular cursor, pointer on the titlebar but not on its buttons, window
not maximized. -/
theorem onMouseDownBranch_move (m : WindowManager) (ev : MouseEvent) (i : Nat)
    (win : ManagedWindow) (hb : ev.button = 0) (hcur : m.currCursor = .regular)
    (hct : win.cursorOnTitlebar = true) (hcb : win.cursorOnTitlebarButtons = false)
    (hmax : win.isMaximized = false) :
    m.onMouseDownBranch ev i win =
      { m with
          windows := setSlot m.windows i (some (win.setupCursorOffset ev.pos none))
          moveAction := .moveWindow } := by
  simp [WindowManager.onMouseDownBranch, hb, hcur, hct, hcb, hmax]

/-- The matched-window branch when the press lands on a titlebar
button: left button, regular cursor, pointer on the titlebar buttons. -/
theorem onMouseDownBranch_button (m : WindowManager) (ev : MouseEvent) (i : Nat)
    (win : ManagedWindow) (hb : ev.button = 0) (hcur : m.currCursor = .regular)
    (hct : win.cursorOnTitlebar = true) (hcb : win.cursorOnTitlebarButtons = true) :
    m.onMouseDownBranch ev i win =
      { m with
          windows := setSlot m.windows i (some win.pushTitlebarButton.1)
          pressedButton := win.pushTitlebarButton.2
          moveAction := .titlebarButtonMove } := by
  simp [WindowManager.onMouseDownBranch, hb, hcur, hct, hcb]

/-- The `_bringWindowToTop` loop preserves the backing-array length as
long as every written index stays in bounds. -/
theorem bringWindowToTopLoop_length (tw : ManagedWindow) :
    ∀ (fuel : Nat) (ws : List (Option ManagedWindow)) (i : Nat),
      i + fuel < ws.length →
      (WindowManager.bringWindowToTopLoop ws tw i fuel).length = ws.length := by
  intro fuel
  induction fuel with
  | zero => intro ws i _; rfl
  | succ f ih =>
    intro ws i h
    simp only [WindowManager.bringWindowToTopLoop]
    generalize (match getSlot ws ((i : Int) + 1) with
      | some u => some ((u.updateWindowZIndex (i : Int)).updateWindowFocus false)
      | none => none) = sh
    have h1 : (setSlot ws i sh).length = ws.length :=
      length_setSlot_of_lt _ _ _ (by omega)
    have h2 : (setSlot (setSlot ws i sh) (i + 1) (some tw)).length = ws.length := by
      rw [length_setSlot_of_lt _ _ _ (by rw [h1]; omega), h1]
    rw [ih _ (i + 1) (by rw [h2]; omega), h2]

/-- `_bringWindowToTop k` on a populated slot `k`: the target window is
re-stored at the top index with the top z-index and focus, the array
length is unchanged, and no non-`windows` field moves. -/
theorem bringWindowToTop_spec (m : WindowManager) (k : Nat) (w : ManagedWindow)
    (hw : getSlot m.windows (k : Int) = some w)
    (htop : m.zIndexTop - 1 < m.windows.length) :
    (m.bringWindowToTop k).zIndexTop = m.zIndexTop ∧
    (m.bringWindowToTop k).moveAction = m.moveAction ∧
    (m.bringWindowToTop k).pressedButton = m.pressedButton ∧
    (m.bringWindowToTop k).activeWindow = m.activeWindow ∧
    (m.bringWindowToTop k).showTooltipPending = m.showTooltipPending ∧
    (m.bringWindowToTop k).closeTooltipPending = m.closeTooltipPending ∧
    (m.bringWindowToTop k).windowWithVisibleTooltip = m.windowWithVisibleTooltip ∧
    (m.bringWindowToTop k).currCursor = m.currCursor ∧
    (m.bringWindowToTop k).windows.length = m.windows.length ∧
    getSlot (m.bringWindowToTop k).windows ((m.zIndexTop - 1 : Nat) : Int) =
      some ((w.updateWindowZIndex ((m.zIndexTop - 1 : Nat) : Int)).updateWindowFocus true) := by
  have hk : k < m.windows.length :=
    lt_length_of_getSlot_isSome _ _ (by rw [hw]; rfl)
  have hlooplen := bringWindowToTopLoop_length w ((m.zIndexTop - 1) - k) m.windows k
    (by omega)
  simp only [WindowManager.bringWindowToTop, hw]
  refine ⟨trivial, trivial, trivial, trivial, trivial, trivial, trivial, trivial, ?_, ?_⟩
  · rw [length_setSlot_of_lt _ _ _ (by omega), hlooplen]
  · rw [setSlot_of_lt _ _ _ (by omega), getSlot_set_self _ _ _ (by omega)]

theorem okBind {α β : Type} (a : α) (f : α → Except String β) :
    (Except.ok a >>= f) = f a := rfl

theorem onMouseDown_match_spec (m : WindowManager) (ev : MouseEvent) (i : Nat)
    (win wB : ManagedWindow) (act : MoveAction) (pb : Int)
    (hlen : m.zIndexTop ≤ m.windows.length) (hi : i < m.zIndexTop)
    (hwin : getSlot m.windows (i : Int) = some win)
    (hfirst : ∀ k : Nat, k < i →
      ∃ u, getSlot m.windows (k : Int) = some u ∧ u.cursorOnWindow = false)
    (hcw : win.cursorOnWindow = true)
    (hwvt : m.windowWithVisibleTooltip = NO_VALUE)
    (hbranch :
      ({ m with showTooltipPending := none,
                closeTooltipPending := false } : WindowManager).onMouseDownBranch ev i win =
        { m with
            showTooltipPending := none
            closeTooltipPending := false
            windows := setSlot m.windows i (some wB)
            moveAction := act
            pressedButton := pb }) :
    ∃ mD, m.onMouseDown ev = .ok mD ∧
      mD.zIndexTop = m.zIndexTop ∧
      mD.windows.length = m.windows.length ∧
      mD.activeWindow = ((m.zIndexTop - 1 : Nat) : Int) ∧
      mD.moveAction = act ∧
      mD.pressedButton = pb ∧
      mD.showTooltipPending = none ∧
      getSlot mD.windows ((m.zIndexTop - 1 : Nat) : Int) =
        some ((wB.updateWindowZIndex ((m.zIndexTop - 1 : Nat) : Int)).updateWindowFocus true) := by
  have hiL : i < m.windows.length := by omega
  set m2 : WindowManager :=
    { m with showTooltipPending := none, closeTooltipPending := false } with hm2
  have hreset : ({ m with showTooltipPending := none } : WindowManager)._resetTooltip =
      .ok m2 := by
    simp [WindowManager._resetTooltip, hwvt, hm2]
  have hloop : m2.onMouseDownLoop ev 0 m2.zIndexTop =
      .ok { m2.onMouseDownBranch ev i win with activeWindow := (i : Int) } :=
    onMouseDownLoop_first_match m2 ev m2.zIndexTop 0 i win (by omega) (Nat.zero_le i)
      hi hwin hcw (fun k _ hk2 => hfirst k hk2)
  set mA : WindowManager :=
    { m with
        showTooltipPending := none
        closeTooltipPending := false
        windows := setSlot m.windows i (some wB)
        moveAction := act
        pressedButton := pb
        activeWindow := (i : Int) } with hmA
  have hloopA : m2.onMouseDownLoop ev 0 m2.zIndexTop = .ok mA := by
    rw [hloop, hbranch]
  have hAwin : getSlot mA.windows ((i : Int)) = some wB := by
    rw [hmA]
    show getSlot (setSlot m.windows i (some wB)) (i : Int) = some wB
    rw [setSlot_of_lt _ _ _ hiL]
    exact getSlot_set_self _ _ _ hiL
  have hAlen : mA.windows.length = m.windows.length := by
    rw [hmA]
    exact length_setSlot_of_lt _ _ _ hiL
  have hbring := bringWindowToTop_spec mA i wB hAwin
    (by rw [hAlen]; show m.zIndexTop - 1 < _; omega)
  have hstep1 : m.onMouseDown ev =
      ((({ m with showTooltipPending := none } : WindowManager)._resetTooltip) >>= fun m2x =>
        (m2x.onMouseDownLoop ev 0 m2x.zIndexTop) >>= fun m3 =>
          if m3.activeWindow ≠ NO_VALUE then
            Except.ok { m3.bringWindowToTop m3.activeWindow.toNat with
              activeWindow := (m3.zIndexTop : Int) - 1 }
          else
            match getSlot m3.windows ((m3.zIndexTop : Int) - 1) with
            | some w =>
              Except.ok { m3 with
                windows := setSlot m3.windows (m3.zIndexTop - 1)
                  (some (w.updateWindowFocus false)) }
            | none =>
              Except.error "TypeError: cannot call updateWindowFocus of undefined") := rfl
  have hfinal : m.onMouseDown ev =
      .ok { mA.bringWindowToTop i with activeWindow := (m.zIndexTop : Int) - 1 } := by
    rw [hstep1, hreset, okBind, hloopA, okBind]
    rw [if_pos (show ¬(mA.activeWindow = NO_VALUE) by
      rw [hmA]
      show ¬((i : Int) = NO_VALUE)
      unfold NO_VALUE
      omega)]
    rfl
  have hcast : ((m.zIndexTop : Int) - 1) = ((m.zIndexTop - 1 : Nat) : Int) := by omega
  refine ⟨_, hfinal, ?_, ?_, ?_, ?_, ?_, ?_, ?_⟩
  · show (mA.bringWindowToTop i).zIndexTop = m.zIndexTop
    rw [hbring.1]
  · show (mA.bringWindowToTop i).windows.length = m.windows.length
    rw [hbring.2.2.2.2.2.2.2.2.1, hAlen]
  · show (m.zIndexTop : Int) - 1 = _
    omega
  · show (mA.bringWindowToTop i).moveAction = act
    rw [hbring.2.1]
  · show (mA.bringWindowToTop i).pressedButton = pb
    rw [hbring.2.2.1]
  · show (mA.bringWindowToTop i).showTooltipPending = none
    rw [hbring.2.2.2.2.1]
  · show getSlot (mA.bringWindowToTop i).windows ((m.zIndexTop - 1 : Nat) : Int) = _
    exact hbring.2.2.2.2.2.2.2.2.2


/-- A mouse-move during an active move session: the active window's
rect follows the pointer, nothing else changes. -/
theorem onMouseMove_moveSession (s : WindowManager) (ev : MouseEvent) (a : Nat)
    (w : ManagedWindow) (h1 : s.moveAction = .moveWindow)
    (h2 : s.activeWindow = (a : Int)) (h3 : getSlot s.windows (a : Int) = some w)
    (_h4 : a < s.windows.length) :
    s.onMouseMove ev =
      .ok { s with windows := setSlot s.windows a (some (w.updateWindowPosition ev.pos)) } := by
  simp only [WindowManager.onMouseMove, h1, WindowManager._moveWindow, h2, h3]
  rw [show ((a : Int)).toNat = a by omega]

/-- Folding `onMouseMove_moveSession` over a whole drag. -/
theorem runMouseMoves_session (evs : List MouseEvent) :
    ∀ (s : WindowManager) (a : Nat) (w : ManagedWindow),
      s.moveAction = .moveWindow → s.activeWindow = (a : Int) →
      getSlot s.windows (a : Int) = some w → a < s.windows.length →
      ∃ s', runMouseMoves s evs = .ok s' ∧
        s'.moveAction = .moveWindow ∧ s'.activeWindow = (a : Int) ∧
        s'.zIndexTop = s.zIndexTop ∧ s'.windows.length = s.windows.length ∧
        s'.pressedButton = s.pressedButton ∧
        getSlot s'.windows (a : Int) = some (foldMoves w evs) := by
  induction evs with
  | nil =>
    intro s a w h1 h2 h3 _
    exact ⟨s, rfl, h1, h2, rfl, rfl, rfl, h3⟩
  | cons ev rest ih =>
    intro s a w h1 h2 h3 h4
    have hstep := onMouseMove_moveSession s ev a w h1 h2 h3 h4
    have h3' : getSlot (setSlot s.windows a (some (w.updateWindowPosition ev.pos))) (a : Int) =
        some (w.updateWindowPosition ev.pos) := by
      rw [setSlot_of_lt _ _ _ h4]
      exact getSlot_set_self _ _ _ h4
    have h4' : a < (setSlot s.windows a (some (w.updateWindowPosition ev.pos))).length := by
      rw [length_setSlot_of_lt _ _ _ h4]
      exact h4
    obtain ⟨s', hrun, hp1, hp2, hp3, hp4, hp5, hp6⟩ :=
      ih { s with windows := setSlot s.windows a (some (w.updateWindowPosition ev.pos)) }
        a (w.updateWindowPosition ev.pos) h1 h2 h3' h4'
    refine ⟨s', ?_, hp1, hp2, by rw [hp3], ?_, hp5, hp6⟩
    · show (s.onMouseMove ev >>= fun m1 => runMouseMoves m1 rest) = .ok s'
      rw [hstep, okBind, hrun]
    · rw [hp4]
      show (setSlot s.windows a _).length = _
      rw [length_setSlot_of_lt _ _ _ h4]

/-- The mouse-up that ends a move session: the one-time off-screen
correction is delivered to the active window and the manager returns to
idle. -/
theorem onMouseUp_moveSession (s : WindowManager) (a : Nat) (w : ManagedWindow)
    (ev : MouseEvent) (hb : ev.button = 0) (h1 : s.moveAction = .moveWindow)
    (h2 : s.activeWindow = (a : Int)) (h3 : getSlot s.windows (a : Int) = some w)
    (_h4 : a < s.windows.length) :
    s.onMouseUp ev =
      .ok { s with
              windows := setSlot s.windows a (some w.fixOffScreenMove)
              activeWindow := NO_VALUE
              moveAction := MoveAction.defaultMove } := by
  simp only [WindowManager.onMouseUp, hb, h1, h2, h3]
  rw [show ((a : Int)).toNat = a by omega]
  rfl

/-- `moveWithinViewport` always leaves `left ≥ 1` and `top ≥ 1`. -/
theorem moveWithinViewport_pos (r : DialogRect) :
    1 ≤ r.moveWithinViewport.left ∧ 1 ≤ r.moveWithinViewport.top := by
  have hl : r.moveWithinViewport.left =
      if jsTruthy (some (if r.left ≤ 0 then 1 else r.left)) then
        (if r.left ≤ 0 then 1 else r.left) else r.left := rfl
  have ht : r.moveWithinViewport.top =
      if jsTruthy (some (if r.top ≤ 0 then 1 else r.top)) then
        (if r.top ≤ 0 then 1 else r.top) else r.top := rfl
  constructor
  · rw [hl]
    simp only [jsTruthy, bne_iff_ne, ne_eq, ite_not]
    split_ifs <;> omega
  · rw [ht]
    simp only [jsTruthy, bne_iff_ne, ne_eq, ite_not]
    split_ifs <;> omega

/-- `fixOffScreenMove` composes `moveWithinViewport` with the
correction-count bookkeeping. -/
theorem fixOffScreenMove_spec (w : ManagedWindow) :
    1 ≤ w.fixOffScreenMove.rc.left ∧ 1 ≤ w.fixOffScreenMove.rc.top ∧
    w.fixOffScreenMove.fixCount = w.fixCount + 1 := by
  refine ⟨(moveWithinViewport_pos w.rc).1, (moveWithinViewport_pos w.rc).2, rfl⟩


/-! ## Claim C6 -/

/-- C6: a complete move gesture — pointer-down on the titlebar of the
first window under the pointer, any sequence of pointer-moves, then a
left-button pointer-up — leaves the moved window (now the top window)
with `left ≥ 1` and `top ≥ 1`; the off-screen correction
(`fixOffScreenMove` / `moveWithinViewport`) runs exactly once, at the
pointer-up: after the pointer-down and after every prefix of the drag
the window's correction count is still the original one, and after the
pointer-up it has increased by exactly one. -/
theorem C6_move_gesture (m : WindowManager) (evD evU : MouseEvent)
    (moves : List MouseEvent) (i : Nat) (win : ManagedWindow)
    (hlen : m.zIndexTop ≤ m.windows.length) (hi : i < m.zIndexTop)
    (hwin : getSlot m.windows (i : Int) = some win)
    (hfirst : ∀ k : Nat, k < i →
      ∃ u, getSlot m.windows (k : Int) = some u ∧ u.cursorOnWindow = false)
    (hcw : win.cursorOnWindow = true) (hct : win.cursorOnTitlebar = true)
    (hcb : win.cursorOnTitlebarButtons = false) (hmax : win.isMaximized = false)
    (hbD : evD.button = 0) (hbU : evU.button = 0)
    (hcur : m.currCursor = .regular)
    (hwvt : m.windowWithVisibleTooltip = NO_VALUE) :
    ∃ mF wF,
      (m.onMouseDown evD >>= fun m1 => runMouseMoves m1 moves >>= fun m2 =>
        m2.onMouseUp evU) = .ok mF ∧
      getSlot mF.windows ((m.zIndexTop - 1 : Nat) : Int) = some wF ∧
      1 ≤ wF.rc.left ∧ 1 ≤ wF.rc.top ∧
      wF.fixCount = win.fixCount + 1 ∧
      (∀ n : Nat, ∃ mI wI,
        (m.onMouseDown evD >>= fun m1 => runMouseMoves m1 (moves.take n)) = .ok mI ∧
        getSlot mI.windows ((m.zIndexTop - 1 : Nat) : Int) = some wI ∧
        wI.fixCount = win.fixCount) := by
  have hbranch := onMouseDownBranch_move
    ({ m with showTooltipPending := none, closeTooltipPending := false } : WindowManager)
    evD i win hbD hcur hct hcb hmax
  obtain ⟨mD, hDrun, hDz, hDlen, hDa, hDact, hDpb, hDpend, hDslot⟩ :=
    onMouseDown_match_spec m evD i win (win.setupCursorOffset evD.pos none)
      .moveWindow m.pressedButton hlen hi hwin hfirst hcw hwvt (by rw [hbranch])
  have haL : m.zIndexTop - 1 < mD.windows.length := by
    rw [hDlen]
    omega
  obtain ⟨s', hrun, hp1, hp2, hp3, hp4, hp5, hp6⟩ :=
    runMouseMoves_session moves mD (m.zIndexTop - 1)
      (((win.setupCursorOffset evD.pos none).updateWindowZIndex
        ((m.zIndexTop - 1 : Nat) : Int)).updateWindowFocus true) hDact hDa hDslot haL
  have haL' : m.zIndexTop - 1 < s'.windows.length := by
    rw [hp4, hDlen]
    omega
  have hup := onMouseUp_moveSession s' (m.zIndexTop - 1) _ evU hbU hp1 hp2 hp6 haL'
  refine ⟨{ s' with
      windows := setSlot s'.windows (m.zIndexTop - 1)
        (some (foldMoves (((win.setupCursorOffset evD.pos none).updateWindowZIndex
          ((m.zIndexTop - 1 : Nat) : Int)).updateWindowFocus true) moves).fixOffScreenMove),
      activeWindow := NO_VALUE, moveAction := MoveAction.defaultMove },
    (foldMoves (((win.setupCursorOffset evD.pos none).updateWindowZIndex
      ((m.zIndexTop - 1 : Nat) : Int)).updateWindowFocus true) moves).fixOffScreenMove,
    ?_, ?_, (fixOffScreenMove_spec _).1, (fixOffScreenMove_spec _).2.1, ?_, ?_⟩
  · rw [hDrun]
    simp only [okBind]
    rw [hrun]
    simp only [okBind]
    exact hup
  · show getSlot (setSlot s'.windows (m.zIndexTop - 1) _) ((m.zIndexTop - 1 : Nat) : Int) = _
    rw [setSlot_of_lt _ _ _ haL']
    exact getSlot_set_self _ _ _ haL'
  · show (foldMoves _ moves).fixOffScreenMove.fixCount = win.fixCount + 1
    show (foldMoves _ moves).fixCount + 1 = win.fixCount + 1
    rw [foldMoves_fixCount]
    rfl
  · intro n
    obtain ⟨sI, hrunI, hq1, hq2, hq3, hq4, hq5, hq6⟩ :=
      runMouseMoves_session (moves.take n) mD (m.zIndexTop - 1)
        (((win.setupCursorOffset evD.pos none).updateWindowZIndex
          ((m.zIndexTop - 1 : Nat) : Int)).updateWindowFocus true) hDact hDa hDslot haL
    refine ⟨sI, _, ?_, hq6, ?_⟩
    · rw [hDrun]
      simp only [okBind]
      exact hrunI
    · show (foldMoves _ (moves.take n)).fixCount = win.fixCount
      rw [foldMoves_fixCount]
      rfl

/-- Witness for C6: one window, pointer on its titlebar, dragged to
negative coordinates and released. -/
theorem C6_move_gesture_witness :
    (∃ mF wF,
      ((registerAll WindowManager.new
          [{ mkTestWindow 0 with hasFocus := true, cursorOnWindow := true, cursorOnTitlebar := true }]).1.onMouseDown
            { button := 0, pos := ⟨30, 10⟩ } >>= fun m1 =>
        runMouseMoves m1 [{ button := 0, pos := ⟨-40, -25⟩ }] >>= fun m2 =>
        m2.onMouseUp { button := 0, pos := ⟨-40, -25⟩ }) = .ok mF ∧
      getSlot mF.windows 0 = some wF ∧
      1 ≤ wF.rc.left ∧ 1 ≤ wF.rc.top ∧
      wF.fixCount = ({ mkTestWindow 0 with hasFocus := true, cursorOnWindow := true, cursorOnTitlebar := true } : ManagedWindow).fixCount + 1 ∧
      (∀ n : Nat, ∃ mI wI,
        ((registerAll WindowManager.new
            [{ mkTestWindow 0 with hasFocus := true, cursorOnWindow := true, cursorOnTitlebar := true }]).1.onMouseDown
              { button := 0, pos := ⟨30, 10⟩ } >>= fun m1 =>
          runMouseMoves m1 ([{ button := 0, pos := ⟨-40, -25⟩ }].take n)) = .ok mI ∧
        getSlot mI.windows 0 = some wI ∧
        wI.fixCount = ({ mkTestWindow 0 with hasFocus := true, cursorOnWindow := true, cursorOnTitlebar := true } : ManagedWindow).fixCount)) := by
  have h := C6_move_gesture
    (registerAll WindowManager.new
      [{ mkTestWindow 0 with hasFocus := true, cursorOnWindow := true, cursorOnTitlebar := true }]).1
    { button := 0, pos := ⟨30, 10⟩ } { button := 0, pos := ⟨-40, -25⟩ }
    [{ button := 0, pos := ⟨-40, -25⟩ }] 0
    { mkTestWindow 0 with hasFocus := true, cursorOnWindow := true, cursorOnTitlebar := true }
    (by decide) (by decide) (by decide)
    (fun k hk => absurd hk (Nat.not_lt_zero k))
    (by decide) (by decide) (by decide) (by decide) (by decide) (by decide)
    (by decide) (by decide)
  simpa using h


/-! ## Claim C7 -/

theorem setSlot_setSlot (ws : List (Option ManagedWindow)) (a : Nat)
    (v v' : Option ManagedWindow) (h : a < ws.length) :
    setSlot (setSlot ws a v) a v' = setSlot ws a v' := by
  rw [setSlot_of_lt _ _ _ h]
  rw [setSlot_of_lt _ _ _ (by rw [List.length_set]; exact h)]
  rw [setSlot_of_lt _ _ _ h]
  exact List.set_set v v' ws a

/-- `pushTitlebarButton` with the cursor on the buttons: the returned
button is the new hovered/active button and is a real button (not the
`NO_VALUE` sentinel). -/
theorem pushTitlebarButton_hover_snd (w : ManagedWindow)
    (hcb : w.cursorOnTitlebarButtons = true) :
    w.pushTitlebarButton.1.hoverTitlebarButton = w.pushTitlebarButton.2 ∧
    w.pushTitlebarButton.2 ≠ NO_VALUE := by
  simp only [ManagedWindow.pushTitlebarButton, hcb, if_true]
  by_cases hn : w.hoverTitlebarButton = NO_VALUE
  · simp [hn, titlebarButtons_maximize, NO_VALUE]
  · simp [hn]

/-- One step of a titlebar-button drag: the environment records the
hovered button `h` on the active window, then the manager's mouse-move
handler runs `_titlebarButtonMouseMove`; the click log and the recorded
hover survive unchanged. -/
theorem onMouseMove_buttonSession (s : WindowManager) (a : Nat) (pb h : Int)
    (w : ManagedWindow) (h1 : s.moveAction = .titlebarButtonMove)
    (h2 : s.activeWindow = (a : Int)) (h3 : s.pressedButton = pb)
    (hpb : pb ≠ NO_VALUE) (h4 : getSlot s.windows (a : Int) = some w)
    (h5 : a < s.windows.length) :
    ∃ wS, (s.setHoverOnActive h).onMouseMove { button := 0, pos := ⟨0, 0⟩ } =
        .ok { s with windows := setSlot s.windows a (some wS) } ∧
      wS.clickedButtons = w.clickedButtons ∧
      wS.hoverTitlebarButton = h := by
  have htn : ((a : Int)).toNat = a := by omega
  have hset : s.setHoverOnActive h =
      { s with windows := setSlot s.windows a (some { w with hoverTitlebarButton := h }) } := by
    simp only [WindowManager.setHoverOnActive, h2, h4, htn]
  have hslot : getSlot (setSlot s.windows a
      (some { w with hoverTitlebarButton := h })) (a : Int) =
      some { w with hoverTitlebarButton := h } := by
    rw [setSlot_of_lt _ _ _ h5]
    exact getSlot_set_self _ _ _ h5
  by_cases hcase : h = pb
  · refine ⟨({ w with hoverTitlebarButton := h } : ManagedWindow).pushTitlebarButton.1,
      ?_, ?_, ?_⟩
    · rw [hset]
      simp only [WindowManager.onMouseMove, h1, WindowManager._titlebarButtonMouseMove,
        h2, hslot, h3, htn, ne_eq, ite_not]
      rw [if_pos hcase, setSlot_setSlot _ _ _ _ h5]
    · rw [ManagedWindow.pushTitlebarButton_clickedButtons]
    · have hne : h ≠ NO_VALUE := hcase ▸ hpb
      by_cases hc : w.cursorOnTitlebarButtons
      · simp [ManagedWindow.pushTitlebarButton, hc, hne]
      · simp [ManagedWindow.pushTitlebarButton, hc]
  · refine ⟨({ w with hoverTitlebarButton := h } : ManagedWindow).releaseTitlebarButton,
      ?_, rfl, rfl⟩
    rw [hset]
    simp only [WindowManager.onMouseMove, h1, WindowManager._titlebarButtonMouseMove,
      h2, hslot, h3, htn, ne_eq, ite_not]
    rw [if_neg hcase, setSlot_setSlot _ _ _ _ h5]

/-- Folding `onMouseMove_buttonSession` over a whole button drag: the
click log never grows during the drag and the final recorded hover is
the last hover reported by the environment. -/
theorem runButtonMoves_session (hovers : List Int) :
    ∀ (s : WindowManager) (a : Nat) (pb : Int) (w : ManagedWindow),
      s.moveAction = .titlebarButtonMove → s.activeWindow = (a : Int) →
      s.pressedButton = pb → pb ≠ NO_VALUE →
      getSlot s.windows (a : Int) = some w → a < s.windows.length →
      ∃ s' w', runButtonMoves s hovers = .ok s' ∧
        s'.moveAction = .titlebarButtonMove ∧ s'.activeWindow = (a : Int) ∧
        s'.pressedButton = pb ∧ s'.zIndexTop = s.zIndexTop ∧
        s'.windows.length = s.windows.length ∧
        getSlot s'.windows (a : Int) = some w' ∧
        w'.clickedButtons = w.clickedButtons ∧
        w'.hoverTitlebarButton = hovers.getLastD w.hoverTitlebarButton := by
  induction hovers with
  | nil =>
    intro s a pb w h1 h2 h3 _ h4 _
    exact ⟨s, w, rfl, h1, h2, h3, rfl, rfl, h4, rfl, rfl⟩
  | cons h rest ih =>
    intro s a pb w h1 h2 h3 hpb h4 h5
    obtain ⟨wS, hstep, hcl, hhv⟩ :=
      onMouseMove_buttonSession s a pb h w h1 h2 h3 hpb h4 h5
    have h4' : getSlot (setSlot s.windows a (some wS)) (a : Int) = some wS := by
      rw [setSlot_of_lt _ _ _ h5]
      exact getSlot_set_self _ _ _ h5
    have h5' : a < (setSlot s.windows a (some wS)).length := by
      rw [length_setSlot_of_lt _ _ _ h5]
      exact h5
    obtain ⟨s', w', hrun, p1, p2, p3, p4, p5, p6, p7, p8⟩ :=
      ih { s with windows := setSlot s.windows a (some wS) } a pb wS h1 h2 h3 hpb h4' h5'
    refine ⟨s', w', ?_, p1, p2, p3, by rw [p4], ?_, p6, by rw [p7, hcl], ?_⟩
    · show ((s.setHoverOnActive h).onMouseMove { button := 0, pos := ⟨0, 0⟩ } >>=
        fun m2 => runButtonMoves m2 rest) = .ok s'
      rw [hstep, okBind, hrun]
    · rw [p5]
      show (setSlot s.windows a _).length = _
      rw [length_setSlot_of_lt _ _ _ h5]
    · rw [p8, hhv, List.getLastD_cons]

/-- The mouse-up that ends a titlebar-button session: the button is
released and the click is delivered exactly when the recorded hover
still equals the originally pressed button. -/
theorem onMouseUp_buttonSession (s : WindowManager) (a : Nat) (pb : Int)
    (w : ManagedWindow) (ev : MouseEvent) (hb : ev.button = 0)
    (h1 : s.moveAction = .titlebarButtonMove) (h2 : s.activeWindow = (a : Int))
    (h3 : s.pressedButton = pb) (h4 : getSlot s.windows (a : Int) = some w) :
    s.onMouseUp ev =
      .ok { s with
              windows := setSlot s.windows a
                (some (if w.hoverTitlebarButton = pb then
                  w.releaseTitlebarButton.handleTitlebarButtonClick pb
                  else w.releaseTitlebarButton))
              activeWindow := NO_VALUE
              moveAction := MoveAction.defaultMove } := by
  have htn : ((a : Int)).toNat = a := by omega
  simp only [WindowManager.onMouseUp, hb, h1, h2, h3, h4, htn]
  rfl


/-- C7: a complete titlebar-button press session — pointer-down over a
titlebar button (which records the pressed button), any sequence of
hover changes during the drag, then a left-button pointer-up — delivers
the button's click action exactly once if the last recorded hover is
still the originally pressed button, and not at all otherwise; no click
is delivered during the drag itself (the click log after the press and
after every prefix of the drag is still the original one). -/
theorem C7_titlebar_button_commit (m : WindowManager) (evD evU : MouseEvent)
    (hovers : List Int) (i : Nat) (win : ManagedWindow)
    (hlen : m.zIndexTop ≤ m.windows.length) (hi : i < m.zIndexTop)
    (hwin : getSlot m.windows (i : Int) = some win)
    (hfirst : ∀ k : Nat, k < i →
      ∃ u, getSlot m.windows (k : Int) = some u ∧ u.cursorOnWindow = false)
    (hcw : win.cursorOnWindow = true) (hct : win.cursorOnTitlebar = true)
    (hcb : win.cursorOnTitlebarButtons = true)
    (hbD : evD.button = 0) (hbU : evU.button = 0)
    (hcur : m.currCursor = .regular)
    (hwvt : m.windowWithVisibleTooltip = NO_VALUE) :
    ∃ mF wF,
      (m.onMouseDown evD >>= fun m1 => runButtonMoves m1 hovers >>= fun m2 =>
        m2.onMouseUp evU) = .ok mF ∧
      getSlot mF.windows ((m.zIndexTop - 1 : Nat) : Int) = some wF ∧
      wF.clickedButtons = win.clickedButtons ++
        (if hovers.getLastD win.pushTitlebarButton.2 = win.pushTitlebarButton.2 then
          [win.pushTitlebarButton.2] else []) ∧
      (∀ n : Nat, ∃ mI wI,
        (m.onMouseDown evD >>= fun m1 => runButtonMoves m1 (hovers.take n)) = .ok mI ∧
        getSlot mI.windows ((m.zIndexTop - 1 : Nat) : Int) = some wI ∧
        wI.clickedButtons = win.clickedButtons) := by
  obtain ⟨hps, hpne⟩ := pushTitlebarButton_hover_snd win hcb
  have hbranch := onMouseDownBranch_button
    ({ m with showTooltipPending := none, closeTooltipPending := false } : WindowManager)
    evD i win hbD hcur hct hcb
  obtain ⟨mD, hDrun, hDz, hDlen, hDa, hDact, hDpb, hDpend, hDslot⟩ :=
    onMouseDown_match_spec m evD i win win.pushTitlebarButton.1
      .titlebarButtonMove win.pushTitlebarButton.2 hlen hi hwin hfirst hcw hwvt
      (by rw [hbranch])
  have haL : m.zIndexTop - 1 < mD.windows.length := by
    rw [hDlen]
    omega
  obtain ⟨s', w', hrun, p1, p2, p3, p4, p5, p6, p7, p8⟩ :=
    runButtonMoves_session hovers mD (m.zIndexTop - 1) win.pushTitlebarButton.2
      ((win.pushTitlebarButton.1.updateWindowZIndex
        ((m.zIndexTop - 1 : Nat) : Int)).updateWindowFocus true)
      hDact hDa hDpb hpne hDslot haL
  have haL' : m.zIndexTop - 1 < s'.windows.length := by
    rw [p5, hDlen]
    omega
  have hup := onMouseUp_buttonSession s' (m.zIndexTop - 1) win.pushTitlebarButton.2
    w' evU hbU p1 p2 p3 p6
  have hwD_hover : ((win.pushTitlebarButton.1.updateWindowZIndex
      ((m.zIndexTop - 1 : Nat) : Int)).updateWindowFocus true).hoverTitlebarButton =
      win.pushTitlebarButton.2 := hps
  have hw'_hover : w'.hoverTitlebarButton =
      hovers.getLastD win.pushTitlebarButton.2 := by
    rw [p8, hwD_hover]
  have hwD_clicked : ((win.pushTitlebarButton.1.updateWindowZIndex
      ((m.zIndexTop - 1 : Nat) : Int)).updateWindowFocus true).clickedButtons =
      win.clickedButtons := ManagedWindow.pushTitlebarButton_clickedButtons win
  refine ⟨{ s' with
      windows := setSlot s'.windows (m.zIndexTop - 1)
        (some (if w'.hoverTitlebarButton = win.pushTitlebarButton.2 then
          w'.releaseTitlebarButton.handleTitlebarButtonClick win.pushTitlebarButton.2
          else w'.releaseTitlebarButton)),
      activeWindow := NO_VALUE, moveAction := MoveAction.defaultMove },
    (if w'.hoverTitlebarButton = win.pushTitlebarButton.2 then
      w'.releaseTitlebarButton.handleTitlebarButtonClick win.pushTitlebarButton.2
      else w'.releaseTitlebarButton), ?_, ?_, ?_, ?_⟩
  · rw [hDrun]
    simp only [okBind]
    rw [hrun]
    simp only [okBind]
    exact hup
  · show getSlot (setSlot s'.windows (m.zIndexTop - 1) _) ((m.zIndexTop - 1 : Nat) : Int) = _
    rw [setSlot_of_lt _ _ _ haL']
    exact getSlot_set_self _ _ _ haL'
  · rw [hw'_hover]
    by_cases hfin : hovers.getLastD win.pushTitlebarButton.2 = win.pushTitlebarButton.2
    · rw [if_pos hfin, if_pos hfin]
      show w'.clickedButtons ++ [win.pushTitlebarButton.2] =
        win.clickedButtons ++ [win.pushTitlebarButton.2]
      rw [p7, hwD_clicked]
    · rw [if_neg hfin, if_neg hfin]
      show w'.clickedButtons = win.clickedButtons ++ []
      rw [p7, hwD_clicked, List.append_nil]
  · intro n
    obtain ⟨sI, wI, hrunI, q1, q2, q3, q4, q5, q6, q7, q8⟩ :=
      runButtonMoves_session (hovers.take n) mD (m.zIndexTop - 1)
        win.pushTitlebarButton.2
        ((win.pushTitlebarButton.1.updateWindowZIndex
          ((m.zIndexTop - 1 : Nat) : Int)).updateWindowFocus true)
        hDact hDa hDpb hpne hDslot haL
    refine ⟨sI, wI, ?_, q6, ?_⟩
    · rw [hDrun]
      simp only [okBind]
      exact hrunI
    · rw [q7, hwD_clicked]

/-- Witness for C7: one window, press on its titlebar buttons (the
default hover gives the maximize button), drag across the close button
and back onto maximize, release: the click fires exactly once. -/
theorem C7_titlebar_button_commit_witness :
    (∃ mF wF,
      ((registerAll WindowManager.new
          [{ mkTestWindow 0 with hasFocus := true, cursorOnWindow := true, cursorOnTitlebar := true, cursorOnTitlebarButtons := true }]).1.onMouseDown
            { button := 0, pos := ⟨30, 10⟩ } >>= fun m1 =>
        runButtonMoves m1 [2, 1] >>= fun m2 =>
        m2.onMouseUp { button := 0, pos := ⟨30, 10⟩ }) = .ok mF ∧
      getSlot mF.windows 0 = some wF ∧
      wF.clickedButtons = ({ mkTestWindow 0 with hasFocus := true, cursorOnWindow := true, cursorOnTitlebar := true, cursorOnTitlebarButtons := true } : ManagedWindow).clickedButtons ++
        (if ([2, 1] : List Int).getLastD ({ mkTestWindow 0 with hasFocus := true, cursorOnWindow := true, cursorOnTitlebar := true, cursorOnTitlebarButtons := true } : ManagedWindow).pushTitlebarButton.2 = ({ mkTestWindow 0 with hasFocus := true, cursorOnWindow := true, cursorOnTitlebar := true, cursorOnTitlebarButtons := true } : ManagedWindow).pushTitlebarButton.2 then
          [({ mkTestWindow 0 with hasFocus := true, cursorOnWindow := true, cursorOnTitlebar := true, cursorOnTitlebarButtons := true } : ManagedWindow).pushTitlebarButton.2] else []) ∧
      (∀ n : Nat, ∃ mI wI,
        ((registerAll WindowManager.new
            [{ mkTestWindow 0 with hasFocus := true, cursorOnWindow := true, cursorOnTitlebar := true, cursorOnTitlebarButtons := true }]).1.onMouseDown
              { button := 0, pos := ⟨30, 10⟩ } >>= fun m1 =>
          runButtonMoves m1 (([2, 1] : List Int).take n)) = .ok mI ∧
        getSlot mI.windows 0 = some wI ∧
        wI.clickedButtons = ({ mkTestWindow 0 with hasFocus := true, cursorOnWindow := true, cursorOnTitlebar := true, cursorOnTitlebarButtons := true } : ManagedWindow).clickedButtons)) := by
  have h := C7_titlebar_button_commit
    (registerAll WindowManager.new
      [{ mkTestWindow 0 with hasFocus := true, cursorOnWindow := true, cursorOnTitlebar := true, cursorOnTitlebarButtons := true }]).1
    { button := 0, pos := ⟨30, 10⟩ } { button := 0, pos := ⟨30, 10⟩ }
    [2, 1] 0
    { mkTestWindow 0 with hasFocus := true, cursorOnWindow := true, cursorOnTitlebar := true, cursorOnTitlebarButtons := true }
    (by decide) (by decide) (by decide)
    (fun k hk => absurd hk (Nat.not_lt_zero k))
    (by decide) (by decide) (by decide) (by decide) (by decide) (by decide)
    (by decide)
  simpa using h


/-! ## Claim C9 (amended) -/

/-- The matched-window branch of the pointer-down scan never changes the
registered count or the array length, and leaves the matched slot
populated. -/
theorem onMouseDownBranch_shape (m : WindowManager) (ev : MouseEvent) (i : Nat)
    (win : ManagedWindow) (hiL : i < m.windows.length)
    (hwin : getSlot m.windows (i : Int) = some win) :
    (m.onMouseDownBranch ev i win).zIndexTop = m.zIndexTop ∧
    (m.onMouseDownBranch ev i win).windows.length = m.windows.length ∧
    (getSlot (m.onMouseDownBranch ev i win).windows (i : Int)).isSome := by
  have hset : ∀ v : ManagedWindow,
      getSlot (setSlot m.windows i (some v)) (i : Int) = some v := by
    intro v
    rw [setSlot_of_lt _ _ _ hiL]
    exact getSlot_set_self _ _ _ hiL
  unfold WindowManager.onMouseDownBranch
  split_ifs <;>
    refine ⟨rfl, ?_, ?_⟩ <;>
    first
      | exact length_setSlot_of_lt _ _ _ hiL
      | rfl
      | (show (getSlot (setSlot m.windows i _) (i : Int)).isSome
         rw [hset]
         rfl)
      | (rw [hwin]; rfl)

/-- C9 (amended): with at least one registered window, every live
registry slot populated, and the manager idle (no active session, and
the visible-tooltip sentinel either clear or naming a populated slot),
a pointer-down never faults: it returns a successor state in which
either a matched window was raised to the top and made active, or no
window matched and nothing happened beyond defocusing the top window.
(With zero registered windows the handler faults; see the
counterexample.) -/
theorem C9_pointer_down_no_fault (m : WindowManager) (ev : MouseEvent)
    (hz : 0 < m.zIndexTop) (hlen : m.zIndexTop ≤ m.windows.length)
    (hpop : ∀ k : Nat, k < m.zIndexTop → (getSlot m.windows (k : Int)).isSome)
    (ha : m.activeWindow = NO_VALUE)
    (hwvt : m.windowWithVisibleTooltip = NO_VALUE ∨
      (0 ≤ m.windowWithVisibleTooltip ∧
        (getSlot m.windows m.windowWithVisibleTooltip).isSome)) :
    ∃ m', m.onMouseDown ev = .ok m' ∧
      m'.zIndexTop = m.zIndexTop ∧ m'.windows.length = m.windows.length ∧
      ((m'.moveAction = m.moveAction ∧ m'.activeWindow = NO_VALUE ∧
        ∃ w : ManagedWindow, getSlot m'.windows ((m.zIndexTop - 1 : Nat) : Int) =
          some (w.updateWindowFocus false)) ∨
       m'.activeWindow = ((m.zIndexTop - 1 : Nat) : Int)) := by
  obtain ⟨m2, hr, q1x, q2x, q3x, q4x, q5x, q6, q7x, q8x⟩ :=
    _resetTooltip_spec { m with showTooltipPending := none } hwvt
  have q1 : m2.zIndexTop = m.zIndexTop := q1x
  have q2 : m2.activeWindow = m.activeWindow := q2x
  have q3 : m2.moveAction = m.moveAction := q3x
  have q7 : m2.windows.length = m.windows.length := q7x
  have q8 : ∀ k : Nat, (getSlot m2.windows (k : Int)).map ManagedWindow.cursorOnWindow =
      (getSlot m.windows (k : Int)).map ManagedWindow.cursorOnWindow := q8x
  have hpop2 : ∀ k : Nat, k < m.zIndexTop → (getSlot m2.windows (k : Int)).isSome := by
    intro k hk
    obtain ⟨w, hw⟩ := Option.isSome_iff_exists.mp (hpop k hk)
    have hm := q8 k
    rw [hw] at hm
    obtain ⟨w2, hw2, -⟩ := Option.map_eq_some'.mp hm
    rw [hw2]
    rfl
  have hcast : ((m.zIndexTop : Int) - 1) = ((m.zIndexTop - 1 : Nat) : Int) := by omega
  have hstep1 : m.onMouseDown ev =
      ((({ m with showTooltipPending := none } : WindowManager)._resetTooltip) >>= fun m2x =>
        (m2x.onMouseDownLoop ev 0 m2x.zIndexTop) >>= fun m3 =>
          if m3.activeWindow ≠ NO_VALUE then
            Except.ok { m3.bringWindowToTop m3.activeWindow.toNat with
              activeWindow := (m3.zIndexTop : Int) - 1 }
          else
            match getSlot m3.windows ((m3.zIndexTop : Int) - 1) with
            | some w =>
              Except.ok { m3 with
                windows := setSlot m3.windows (m3.zIndexTop - 1)
                  (some (w.updateWindowFocus false)) }
            | none =>
              Except.error "TypeError: cannot call updateWindowFocus of undefined") := rfl
  rcases onMouseDownLoop_ok m2 ev m2.zIndexTop 0 (by omega)
      (fun k _ hk2 => hpop2 k (q1 ▸ hk2)) with
    ⟨hall, hloop⟩ | ⟨j, win, h0j, hj, hwin, hwcw, hloop⟩
  · -- no window under the pointer: the top window is defocused
    obtain ⟨w2, hw2⟩ := Option.isSome_iff_exists.mp
      (hpop2 (m.zIndexTop - 1) (by omega))
    have hw2' : getSlot m2.windows ((m2.zIndexTop : Int) - 1) = some w2 := by
      rw [q1, hcast]
      exact hw2
    have hlt2 : m.zIndexTop - 1 < m2.windows.length := by
      rw [q7]
      omega
    refine ⟨{ m2 with windows := setSlot m2.windows (m2.zIndexTop - 1) (some (w2.updateWindowFocus false)) }, ?_, q1, ?_, Or.inl ⟨q3, q2.trans ha, w2, ?_⟩⟩
    · rw [hstep1, hr]
      simp only [okBind]
      rw [hloop]
      simp only [okBind]
      rw [if_neg (not_not_intro (q2.trans ha)), hw2']
    · show (setSlot m2.windows (m2.zIndexTop - 1) _).length = m.windows.length
      rw [length_setSlot_of_lt _ _ _ (by rw [q7, q1]; omega), q7]
    · show getSlot (setSlot m2.windows (m2.zIndexTop - 1) _) ((m.zIndexTop - 1 : Nat) : Int) = _
      rw [q1, setSlot_of_lt _ _ _ hlt2]
      exact getSlot_set_self _ _ _ hlt2
  · -- a window matched: it is raised to the top and becomes active
    have hjm : j < m.zIndexTop := q1 ▸ hj
    have hjL : j < m2.windows.length := by
      rw [q7]
      omega
    obtain ⟨hbz, hblen, hbsome⟩ := onMouseDownBranch_shape m2 ev j win hjL hwin
    obtain ⟨wB, hwB⟩ := Option.isSome_iff_exists.mp hbsome
    have hm3win : getSlot ({ m2.onMouseDownBranch ev j win with
        activeWindow := (j : Int) } : WindowManager).windows (j : Int) = some wB := hwB
    have htop3 : ({ m2.onMouseDownBranch ev j win with
          activeWindow := (j : Int) } : WindowManager).zIndexTop - 1 <
        ({ m2.onMouseDownBranch ev j win with
          activeWindow := (j : Int) } : WindowManager).windows.length := by
      show (m2.onMouseDownBranch ev j win).zIndexTop - 1 <
        (m2.onMouseDownBranch ev j win).windows.length
      rw [hbz, hblen, q1, q7]
      omega
    have hbring := bringWindowToTop_spec
      ({ m2.onMouseDownBranch ev j win with activeWindow := (j : Int) } : WindowManager)
      j wB hm3win htop3
    have heq : m.onMouseDown ev =
        .ok { ({ m2.onMouseDownBranch ev j win with activeWindow := (j : Int) } : WindowManager).bringWindowToTop j with activeWindow := ((m2.onMouseDownBranch ev j win).zIndexTop : Int) - 1 } := by
      rw [hstep1, hr]
      simp only [okBind]
      rw [hloop]
      simp only [okBind]
      rw [if_pos (show ¬(({ m2.onMouseDownBranch ev j win with
          activeWindow := (j : Int) } : WindowManager).activeWindow = NO_VALUE) by
        show ¬((j : Int) = NO_VALUE)
        unfold NO_VALUE
        omega)]
      rfl
    refine ⟨_, heq, ?_, ?_, Or.inr ?_⟩
    · show (({ m2.onMouseDownBranch ev j win with
        activeWindow := (j : Int) } : WindowManager).bringWindowToTop j).zIndexTop =
        m.zIndexTop
      rw [hbring.1]
      show (m2.onMouseDownBranch ev j win).zIndexTop = m.zIndexTop
      rw [hbz, q1]
    · show (({ m2.onMouseDownBranch ev j win with
        activeWindow := (j : Int) } : WindowManager).bringWindowToTop j).windows.length =
        m.windows.length
      rw [hbring.2.2.2.2.2.2.2.2.1]
      show (m2.onMouseDownBranch ev j win).windows.length = m.windows.length
      rw [hblen, q7]
    · show ((m2.onMouseDownBranch ev j win).zIndexTop : Int) - 1 =
        ((m.zIndexTop - 1 : Nat) : Int)
      rw [hbz, q1]
      exact hcast

/-- Witness for the amended C9: a single registered window that does not
report the pointer over it; the pointer-down succeeds and merely
defocuses the top window. -/
theorem C9_pointer_down_no_fault_witness :
    (∃ m', (registerAll WindowManager.new [mkTestWindow 0]).1.onMouseDown
        { button := 0, pos := ⟨5, 5⟩ } = .ok m' ∧
      m'.zIndexTop = (registerAll WindowManager.new [mkTestWindow 0]).1.zIndexTop ∧
      m'.windows.length = (registerAll WindowManager.new [mkTestWindow 0]).1.windows.length ∧
      ((m'.moveAction = (registerAll WindowManager.new [mkTestWindow 0]).1.moveAction ∧
        m'.activeWindow = NO_VALUE ∧
        ∃ w : ManagedWindow, getSlot m'.windows 0 = some (w.updateWindowFocus false)) ∨
       m'.activeWindow = 0)) := by
  have h := C9_pointer_down_no_fault
    (registerAll WindowManager.new [mkTestWindow 0]).1 { button := 0, pos := ⟨5, 5⟩ }
    (by decide) (by decide) (by decide) (by decide) (Or.inl (by decide))
  simpa using h

end ReactWin32
